import Mathlib

/-!
Verification development for the Maxwell3D command dispatcher
(soc/gm20b/engines/maxwell_3d.cpp) and for the pipeline-state translators
(gpu/interconnect/maxwell_3d/pipeline_state.cpp) of the skyline GPU core.

The dispatcher is embedded as a pure state-transition function over an
explicit engine state; downstream interconnect calls (draws, bulk
constant-buffer loads, clears, warnings, ...) are recorded in an event
trace, thrown exceptions in an error trace, and dirty marking in a list
of marked register addresses.  The register file and its shadow copy are
functions from method addresses to 32-bit words, represented as Nat.

Method addresses, register bit layouts and hardware enumeration values
are declared in engine headers that are not part of the excerpt; they are
modelled here as fixed, pairwise distinct constants and fixed bit
positions.  The properties proved below depend only on distinctness of
the addresses and of the enumeration values, never on the particular
numbers chosen.
-/

/-- Pointwise update of a register file at one method address. -/
def upd (f : Nat → Nat) (i v : Nat) : Nat → Nat := fun j => if j = i then v else f j

/- Method addresses.  Modelled from the spec: the engine register layout is
declared in maxwell_3d.h / maxwell/types.h, which are not under src; the
dispatcher only needs each named method to live at its own fixed address. -/

def mmeInstructionRamPointerAddr : Nat := 0x45
def mmeInstructionRamLoadAddr : Nat := 0x46
def mmeStartAddressRamPointerAddr : Nat := 0x47
def mmeStartAddressRamLoadAddr : Nat := 0x48
def shadowRamControlAddr : Nat := 0x49
def i2mLaunchDmaAddr : Nat := 0x6C
def i2mLoadInlineDataAddr : Nat := 0x6D
def syncpointActionAddr : Nat := 0xB2
def vertexArrayStartAddr : Nat := 0x35D
def drawVertexArrayCountAddr : Nat := 0x36F
def globalBaseVertexIndexAddr : Nat := 0x50D
def globalBaseInstanceIndexAddr : Nat := 0x50E
def endAddr : Nat := 0x585
def beginAddr : Nat := 0x586
def indexBufferFirstAddr : Nat := 0x5F7
def drawIndexBufferCountAddr : Nat := 0x5F8
def clearSurfaceAddr : Nat := 0x674
def semaphoreAddressAddr : Nat := 0x6B8
def semaphorePayloadAddr : Nat := 0x6BA
def semaphoreInfoAddr : Nat := 0x6BB
def primitiveTopologyControlAddr : Nat := 0x700
def primitiveTopologyAddr : Nat := 0x701
def loadConstantBufferOffsetAddr : Nat := 0x8E4

/-- loadConstantBuffer.data[i] lives at this base plus i, for i < 16. -/
def loadConstantBufferDataBase : Nat := 0x8E8

/-- bindGroups[i].constantBuffer lives at this base plus 8*i, for i < 5. -/
def bindGroupsConstantBufferBase : Nat := 0x904

def firmwareScratchAddr : Nat := 0xD00
def firmwareCallAddr4 : Nat := 0xD04

/-- vertexStreams[i].format at base + 4*i, vertexStreams[i].frequency at
base + 4*i + 3, for i < 16. -/
def vertexStreamsBase : Nat := 0x1000
def vertexStreamInstanceBase : Nat := 0x1100
def vertexAttributesBase : Nat := 0x1160
def primitiveRestartEnableAddr : Nat := 0x1200
def patchSizeAddr : Nat := 0x1210
def tessellationParametersAddr : Nat := 0x1211

/- MmeShadowRamControl values.  Modelled from the spec: the enum lives in
maxwell/types.h (not under src); the spec names a 3-mode policy
(passthrough / track-writes / replay-tracked-writes) and the dispatcher
additionally distinguishes a filtered track mode. -/
def shadowModeMethodTrack : Nat := 0
def shadowModeMethodTrackWithFilter : Nat := 1
def shadowModeMethodPassthrough : Nat := 2
def shadowModeMethodReplay : Nat := 3

/- Begin-method argument bit layout, modelled: op in the low 16 bits,
instanceId in bits 26..27 with Subsequent = 1. -/
def beginOp (a : Nat) : Nat := a % 2 ^ 16
def beginInstanceId (a : Nat) : Nat := a / 2 ^ 26 % 4
def instanceIdSubsequent : Nat := 1

/-- Modelled from the spec: ConvertPrimitiveTopologyToDrawTopology is a
conversion table in maxwell/types.h (not under src); no property below
depends on its values, so it is taken as the identity map on codes. -/
def ConvertPrimitiveTopologyToDrawTopology (t : Nat) : Nat := t

/- Macro engine capacities.  Modelled from the spec: MacroState lives
outside the excerpt; the spec only requires a fixed microcode memory
capacity and a fixed macro-position table capacity. -/
def mmeCodeSize : Nat := 0x800
def mmePositionsSize : Nat := 0x80

/-- Deferred draw record, per the spec data model:
{pending, topology, indexed, count, first, instanceCount, baseVertex,
baseInstance}. -/
structure DeferredDrawState where
  pending : Bool
  drawTopology : Nat
  indexed : Bool
  drawCount : Nat
  drawFirst : Nat
  instanceCount : Nat
  drawBaseVertex : Nat
  drawBaseInstance : Nat
deriving DecidableEq

/-- Modelled from the spec: DeferredDrawState::Set is declared in
maxwell_3d.h (not under src).  Per the spec, a draw-triggering write
creates the record (pending set, draw parameters recorded) while
instanceCount is mutated only by begin(Subsequent) writes and by the
flush. -/
def DeferredDrawSet (dd : DeferredDrawState) (count first baseVertex baseInstance topology : Nat)
    (indexed : Bool) : DeferredDrawState :=
  { dd with pending := true, drawCount := count, drawFirst := first,
            drawBaseVertex := baseVertex, drawBaseInstance := baseInstance,
            drawTopology := topology, indexed := indexed }

/-- One downstream call or logged report made by the dispatcher. -/
inductive Event where
  | Draw (topology : Nat) (indexed : Bool) (count first instanceCount baseVertex baseInstance : Nat)
  | LoadConstantBuffer (words : List Nat) (tag : Nat)
  | Clear (arg : Nat)
  | BindConstantBuffer (stage slot : Nat) (valid : Bool)
  | LaunchDma (arg : Nat)
  | LoadInlineData (word : Nat)
  | LoadInlineDataBatch (words : List Nat)
  | Submit
  | SyncpointIncrement (id : Nat)
  | SemaphoreWrite (address payload : Nat) (fourWords : Bool)
  | SetStride (idx v : Nat)
  | SetDivisor (idx v : Nat)
  | SetInputRate (idx v : Nat)
  | SetAttribute (idx v : Nat)
  | SetPrimitiveRestart (enable : Bool)
  | SetTessellationParameters (v : Nat)
  | SetPatchControlPoints (v : Nat)
  | Warn (msg : String)
deriving DecidableEq

/-- Full dispatcher state: register file, shadow copy, the two batching
records, macro memory, dirty marks, the downstream event trace and the
thrown-exception trace. -/
structure EngineState where
  regs : Nat → Nat
  shadow : Nat → Nat
  batchBuffer : List Nat
  batchStartOffset : Nat
  dd : DeferredDrawState
  mmeCode : Nat → Nat
  mmePositions : Nat → Nat
  dirty : List Nat
  events : List Event
  errors : List String

/-- Append a warning-level report (Logger::Warn). -/
def LogWarn (s : EngineState) (msg : String) : EngineState :=
  { s with events := s.events ++ [Event.Warn msg] }

/-- The Draw call emitted for a deferred draw record. -/
def mkDrawEvent (dd : DeferredDrawState) : Event :=
  Event.Draw dd.drawTopology dd.indexed dd.drawCount dd.drawFirst dd.instanceCount
    dd.drawBaseVertex dd.drawBaseInstance

/-- Maxwell3D::FlushDeferredDraw: if a draw is pending, clear pending, emit
the Draw call with the recorded parameters, and reset instanceCount to 1. -/
def FlushDeferredDraw (s : EngineState) : EngineState :=
  if s.dd.pending then
    { s with events := s.events ++ [mkDrawEvent s.dd],
             dd := { s.dd with pending := false, instanceCount := 1 } }
  else s

/-- The batch constant-buffer record is active.  Modelled from the spec:
BatchConstantBufferUpdateState is declared in maxwell_3d.h (not under
src); per the spec the record is created on the first
load-constant-buffer-data write and destroyed (cleared) on flush, so it
is active exactly when it holds accumulated words. -/
def batchActive (s : EngineState) : Prop := s.batchBuffer ≠ []

instance (s : EngineState) : Decidable (batchActive s) :=
  inferInstanceAs (Decidable (s.batchBuffer ≠ []))

/-- Submit the built-up constant buffer update as one bulk
LoadConstantBuffer call (with the invalidation tag derived from the
recorded startOffset) and clear the record. -/
def FlushBatch (s : EngineState) : EngineState :=
  { s with events := s.events ++ [Event.LoadConstantBuffer s.batchBuffer s.batchStartOffset],
           batchBuffer := [] }

/-- Maxwell3D::GetCurrentTopology: take begin.op when
primitiveTopologyControl selects UseTopologyInBeginMethods, else convert
the primitiveTopology register. -/
def GetCurrentTopology (s : EngineState) : Nat :=
  if s.regs primitiveTopologyControlAddr % 2 = 1 then beginOp (s.regs beginAddr)
  else ConvertPrimitiveTopologyToDrawTopology (s.regs primitiveTopologyAddr)

/-- The shadow layer of HandleMethod (for methods other than the shadow-RAM
control register): in the track modes the write is recorded in the shadow
copy; in replay mode the incoming argument is overridden by the shadow
copy.  Returns the adjusted state and the effective argument. -/
def shadowAdjust (s : EngineState) (m a : Nat) : EngineState × Nat :=
  let mode := s.shadow shadowRamControlAddr
  if mode = shadowModeMethodTrack ∨ mode = shadowModeMethodTrackWithFilter then
    ({ s with shadow := upd s.shadow m a }, a)
  else if mode = shadowModeMethodReplay then (s, s.shadow m)
  else (s, a)

/-- Is m one of the 16 loadConstantBuffer.data methods. -/
def isLcbDataAddr (m : Nat) : Prop :=
  loadConstantBufferDataBase ≤ m ∧ m < loadConstantBufferDataBase + 16

instance (m : Nat) : Decidable (isLcbDataAddr m) :=
  inferInstanceAs (Decidable (loadConstantBufferDataBase ≤ m ∧ m < loadConstantBufferDataBase + 16))

/-- Is m one of the 5 bindGroups[i].constantBuffer methods. -/
def isBindGroupsCbufAddr (m : Nat) : Prop :=
  bindGroupsConstantBufferBase ≤ m ∧ m < bindGroupsConstantBufferBase + 8 * 5 ∧
    (m - bindGroupsConstantBufferBase) % 8 = 0

instance (m : Nat) : Decidable (isBindGroupsCbufAddr m) :=
  inferInstanceAs (Decidable (bindGroupsConstantBufferBase ≤ m ∧
    m < bindGroupsConstantBufferBase + 8 * 5 ∧ (m - bindGroupsConstantBufferBase) % 8 = 0))

/- Semaphore info bit layout and values, modelled (types.h not under src):
op in the low 2 bits (Release = 1, Counter = 2), reductionEnable at bit
17, counterType in bits 12..15 (Zero = 0), structureSize at bit 28
(FourWords = 1). -/
def semOp (a : Nat) : Nat := a % 4
def semOpRelease : Nat := 1
def semOpCounter : Nat := 2
def semCounterType (a : Nat) : Nat := a / 2 ^ 12 % 16
def semCounterTypeZero : Nat := 0
def semStructureFourWords (a : Nat) : Prop := a / 2 ^ 28 % 2 = 1

instance (a : Nat) : Decidable (semStructureFourWords a) :=
  inferInstanceAs (Decidable (a / 2 ^ 28 % 2 = 1))

/-- Maxwell3D::WriteSemaphoreResult: write the payload (one word, or four
words led by a timestamp) at the semaphore address. -/
def WriteSemaphoreResult (s : EngineState) (result : Nat) : EngineState :=
  let address := s.regs semaphoreAddressAddr
  if semStructureFourWords (s.regs semaphoreInfoAddr) then
    { s with events := s.events ++ [Event.SemaphoreWrite address result true] }
  else
    { s with events := s.events ++ [Event.SemaphoreWrite address result false] }

/-- The semaphore.info per-method case of HandleMethod. -/
def SemaphoreAction (s : EngineState) (a : Nat) : EngineState :=
  let s := if a / 2 ^ 17 % 2 = 1 then LogWarn s "Semaphore reduction is unimplemented!" else s
  if semOp a = semOpRelease then
    WriteSemaphoreResult { s with events := s.events ++ [Event.Submit] }
      (s.regs semaphorePayloadAddr)
  else if semOp a = semOpCounter then
    if semCounterType a = semCounterTypeZero then
      WriteSemaphoreResult s (s.regs semaphorePayloadAddr)
    else s
  else LogWarn s "Unsupported semaphore operation"

/-- The vertexStream stride field of a vertexStreams[i].format word
(modelled bit layout: low 12 bits). -/
def strideOf (v : Nat) : Nat := v % 2 ^ 12

/-- The redundancy-gated layer of HandleMethod: on a changed value, mark
the address dirty and drive the fast-path direct-state updates
(vertex-stream stride/divisor/input-rate, vertex attributes, primitive
restart, tessellation). -/
def DirtyAndDirect (s : EngineState) (m a : Nat) (redundant : Bool) : EngineState :=
  if redundant then s
  else
    let s := { s with dirty := s.dirty ++ [m] }
    if vertexStreamsBase ≤ m ∧ m < vertexStreamsBase + 4 * 16 then
      if (m - vertexStreamsBase) % 4 = 0 then
        { s with events := s.events ++ [Event.SetStride ((m - vertexStreamsBase) / 4) (strideOf a)] }
      else if (m - vertexStreamsBase) % 4 = 3 then
        { s with events := s.events ++ [Event.SetDivisor ((m - vertexStreamsBase) / 4) a] }
      else s
    else if vertexStreamInstanceBase ≤ m ∧ m < vertexStreamInstanceBase + 16 then
      { s with events := s.events ++ [Event.SetInputRate (m - vertexStreamInstanceBase) a] }
    else if vertexAttributesBase ≤ m ∧ m < vertexAttributesBase + 16 then
      { s with events := s.events ++ [Event.SetAttribute (m - vertexAttributesBase) a] }
    else if m = primitiveRestartEnableAddr then
      { s with events := s.events ++ [Event.SetPrimitiveRestart (a ≠ 0)] }
    else if m = tessellationParametersAddr then
      { s with events := s.events ++ [Event.SetTessellationParameters a] }
    else if m = patchSizeAddr then
      { s with events := s.events ++ [Event.SetPatchControlPoints a] }
    else s

/-- The case selector of the final per-method switch: which case of the
switch statement a method address falls into. -/
inductive MethodCase where
  | instrRamLoad
  | startAddressRamLoad
  | launchDma
  | loadInlineData
  | syncpointAction
  | clearSurface
  | begin
  | drawVertexArrayCount
  | drawIndexBufferCount
  | semaphoreInfo
  | firmwareCall4
  | lcbData
  | bindGroupsCbuf
  | other
deriving DecidableEq

/-- Classify a method address into its case of the per-method switch. -/
def methodCase (m : Nat) : MethodCase :=
  if m = mmeInstructionRamLoadAddr then MethodCase.instrRamLoad
  else if m = mmeStartAddressRamLoadAddr then MethodCase.startAddressRamLoad
  else if m = i2mLaunchDmaAddr then MethodCase.launchDma
  else if m = i2mLoadInlineDataAddr then MethodCase.loadInlineData
  else if m = syncpointActionAddr then MethodCase.syncpointAction
  else if m = clearSurfaceAddr then MethodCase.clearSurface
  else if m = beginAddr then MethodCase.begin
  else if m = drawVertexArrayCountAddr then MethodCase.drawVertexArrayCount
  else if m = drawIndexBufferCountAddr then MethodCase.drawIndexBufferCount
  else if m = semaphoreInfoAddr then MethodCase.semaphoreInfo
  else if m = firmwareCallAddr4 then MethodCase.firmwareCall4
  else if isLcbDataAddr m then MethodCase.lcbData
  else if isBindGroupsCbufAddr m then MethodCase.bindGroupsCbuf
  else MethodCase.other

/-- The final, unconditional per-method switch of HandleMethod: macro
memory loads, inline-to-memory calls, syncpoint actions, clears, the
begin instance bookkeeping, deferred-draw record creation, semaphores,
the firmware call and the batch constant-buffer creation case. -/
def PerMethodEffects (s : EngineState) (m a : Nat) : EngineState :=
  match methodCase m with
  | MethodCase.instrRamLoad =>
    if s.regs mmeInstructionRamPointerAddr ≥ mmeCodeSize then
      { s with errors := s.errors ++ ["Macro memory is full!"] }
    else
      { s with mmeCode := upd s.mmeCode (s.regs mmeInstructionRamPointerAddr) a,
               regs := upd s.regs mmeInstructionRamPointerAddr
                 ((s.regs mmeInstructionRamPointerAddr + 1) % mmeCodeSize) }
  | MethodCase.startAddressRamLoad =>
    if s.regs mmeStartAddressRamPointerAddr ≥ mmePositionsSize then
      { s with errors := s.errors ++ ["Maximum amount of macros reached!"] }
    else
      { s with mmePositions := upd s.mmePositions (s.regs mmeStartAddressRamPointerAddr) a,
               regs := upd s.regs mmeStartAddressRamPointerAddr
                 ((s.regs mmeStartAddressRamPointerAddr + 1) % 2 ^ 32) }
  | MethodCase.launchDma => { s with events := s.events ++ [Event.LaunchDma a] }
  | MethodCase.loadInlineData => { s with events := s.events ++ [Event.LoadInlineData a] }
  | MethodCase.syncpointAction =>
    { s with events := s.events ++ [Event.Submit, Event.SyncpointIncrement (a % 2 ^ 16)] }
  | MethodCase.clearSurface => { s with events := s.events ++ [Event.Clear a] }
  | MethodCase.begin =>
    if beginInstanceId a = instanceIdSubsequent then
      { s with dd := { s.dd with instanceCount := s.dd.instanceCount + 1 } }
    else
      { s with dd := { s.dd with instanceCount := 1 } }
  | MethodCase.drawVertexArrayCount =>
    let dd := DeferredDrawSet s.dd a (s.regs vertexArrayStartAddr) 0
      (s.regs globalBaseInstanceIndexAddr) (GetCurrentTopology s) false
    { s with dd := dd }
  | MethodCase.drawIndexBufferCount =>
    let dd := DeferredDrawSet s.dd a (s.regs indexBufferFirstAddr)
      (s.regs globalBaseVertexIndexAddr) (s.regs globalBaseInstanceIndexAddr)
      (GetCurrentTopology s) true
    { s with dd := dd }
  | MethodCase.semaphoreInfo => SemaphoreAction s a
  | MethodCase.firmwareCall4 => { s with regs := upd s.regs firmwareScratchAddr 1 }
  | MethodCase.lcbData =>
    { s with batchStartOffset := s.regs loadConstantBufferOffsetAddr,
             batchBuffer := s.batchBuffer ++ [a],
             regs := upd s.regs loadConstantBufferOffsetAddr
               ((s.regs loadConstantBufferOffsetAddr + 4) % 2 ^ 32) }
  | MethodCase.bindGroupsCbuf =>
    { s with events := s.events ++
        [Event.BindConstantBuffer ((m - bindGroupsConstantBufferBase) / 8) (a / 2 % 32) (a % 2 = 1)] }
  | MethodCase.other => s

/-- Layers 4 and 5 of the dispatcher: redundancy-gated dirty marking and
direct-state updates, then the unconditional per-method switch. -/
def Layer45 (s : EngineState) (m a : Nat) (redundant : Bool) : EngineState :=
  PerMethodEffects (DirtyAndDirect s m a redundant) m a

/-- Maxwell3D::HandleMethod: the layered dispatcher.  Layer 1 short-circuits
the shadow-RAM control register; the shadow layer adjusts the argument;
the value is committed to the register file; then the batch
constant-buffer layer, the deferred-draw layer, and finally dirty
marking and the per-method switch. -/
def HandleMethod (s : EngineState) (m a : Nat) : EngineState :=
  if m = shadowRamControlAddr then
    { s with regs := upd s.regs m a, shadow := upd s.shadow m a }
  else
    let p := shadowAdjust s m a
    let s0 := p.1
    let a := p.2
    let redundant : Bool := s0.regs m = a
    let s1 : EngineState := { s0 with regs := upd s0.regs m a }
    if batchActive s1 then
      if isLcbDataAddr m then
        { s1 with batchBuffer := s1.batchBuffer ++ [a],
                  regs := upd s1.regs loadConstantBufferOffsetAddr
                    ((s1.regs loadConstantBufferOffsetAddr + 4) % 2 ^ 32) }
      else Layer45 (FlushBatch s1) m a redundant
    else if s1.dd.pending then
      if m = beginAddr then
        if beginInstanceId a = instanceIdSubsequent then
          let s2 := if s1.dd.drawTopology ≠ beginOp a ∧ s1.regs primitiveTopologyControlAddr % 2 = 1
                    then LogWarn s1 "Vertex topology changed partway through instanced draw!"
                    else s1
          { s2 with dd := { s2.dd with instanceCount := s2.dd.instanceCount + 1 } }
        else Layer45 (FlushDeferredDraw s1) m a redundant
      else if m = endAddr then s1
      else if m = drawVertexArrayCountAddr then
        if redundant then s1
        else LogWarn s1 "Vertex count changed partway through instanced draw!"
      else if m = drawIndexBufferCountAddr then
        if redundant then s1
        else LogWarn s1 "Index count changed partway through instanced draw!"
      else Layer45 (FlushDeferredDraw s1) m a redundant
    else Layer45 s1 m a redundant

/-- Process a sequence of (method, argument) writes in order. -/
def run (s : EngineState) : List (Nat × Nat) → EngineState
  | [] => s
  | (m, a) :: rest => run (HandleMethod s m a) rest

/-- Maxwell3D::FlushEngineState: the explicit external flush entry point. -/
def FlushEngineState (s : EngineState) : EngineState :=
  let s := FlushDeferredDraw s
  if batchActive s then FlushBatch s else s

/-- Maxwell3D::CallMethodBatchNonInc: bulk inline data is special-cased as
one whole-batch call; everything else is split into per-word writes. -/
def CallMethodBatchNonInc (s : EngineState) (m : Nat) (args : List Nat) : EngineState :=
  if m = i2mLoadInlineDataAddr then
    { s with events := s.events ++ [Event.LoadInlineDataBatch args] }
  else args.foldl (fun t a => HandleMethod t m a) s

/-- Maxwell3D::CallMethodFromMacro. -/
def CallMethodFromMacro (s : EngineState) (m a : Nat) : EngineState := HandleMethod s m a

/-- Maxwell3D::ReadMethodFromMacro. -/
def ReadMethodFromMacro (s : EngineState) (m : Nat) : Nat := s.regs m

/-- Event classifiers for the traces the claims observe. -/
def isDrawEvent : Event → Bool
  | Event.Draw _ _ _ _ _ _ _ => true
  | _ => false

def isLcbEvent : Event → Bool
  | Event.LoadConstantBuffer _ _ => true
  | _ => false

def isClearEvent : Event → Bool
  | Event.Clear _ => true
  | _ => false

/-- Direct-state fast-path calls: the side effects that only trigger on a
state change (the interconnect.directState updates). -/
def isDirectStateEvent : Event → Bool
  | Event.SetStride _ _ => true
  | Event.SetDivisor _ _ => true
  | Event.SetInputRate _ _ => true
  | Event.SetAttribute _ _ => true
  | Event.SetPrimitiveRestart _ => true
  | Event.SetTessellationParameters _ => true
  | Event.SetPatchControlPoints _ => true
  | _ => false

def drawsOf (es : List Event) : List Event := es.filter isDrawEvent
def lcbsOf (es : List Event) : List Event := es.filter isLcbEvent
def clearsOf (es : List Event) : List Event := es.filter isClearEvent
def directCallsOf (es : List Event) : List Event := es.filter isDirectStateEvent

/-- A quiescent engine state used to instantiate the theorems below: all
registers zero, shadow RAM in passthrough mode, no active batch, no
pending draw. -/
def initState : EngineState :=
  { regs := fun _ => 0,
    shadow := fun a => if a = shadowRamControlAddr then shadowModeMethodPassthrough else 0,
    batchBuffer := [],
    batchStartOffset := 0,
    dd := { pending := false, drawTopology := 0, indexed := false, drawCount := 0,
            drawFirst := 0, instanceCount := 1, drawBaseVertex := 0, drawBaseInstance := 0 },
    mmeCode := fun _ => 0,
    mmePositions := fun _ => 0,
    dirty := [],
    events := [],
    errors := [] }

/-- A state whose shadow RAM is in replay mode, with recorded shadow values
for the methods exercised by the replay witnesses. -/
def replayState : EngineState :=
  { initState with
    shadow := fun a => if a = shadowRamControlAddr then shadowModeMethodReplay else 77 }

/-!
Pipeline-state translators (pipeline_state.cpp).  Hardware enumeration
values are declared in engine headers not under src and are modelled as
fixed distinct codes: the OpenGL-style enumerants carry their customary
numeric values, the D3D-style enumerants small integers.  The
CompareFunc codes are the exception: they are forced by the arithmetic
in ConvertCompareFunc itself.
-/

/- engine::PolygonMode codes (modelled). -/
def pmPoint : Nat := 0x1B00
def pmLine : Nat := 0x1B01
def pmFill : Nat := 0x1B02

/- vk::PolygonMode codes. -/
def vkPolygonModeFill : Nat := 0
def vkPolygonModeLine : Nat := 1
def vkPolygonModePoint : Nat := 2

/-- PackedPipelineState::SetPolygonMode, with the source switch translated
literally.  The cases of the source switch carry no break or return, so a
matching case falls through every later assignment and reaches the
throwing default.  The first component is the final value of the
polygonMode member (its mutations before the throw persist), the second
the raised unsupported-configuration error, if any. -/
def SetPolygonMode (polygonMode : Nat) (mode : Nat) : Nat × Option String :=
  if mode = pmFill then
    let polygonMode := vkPolygonModeFill
    let polygonMode := vkPolygonModeLine
    let polygonMode := vkPolygonModePoint
    (polygonMode, some "Invalid polygon mode")
  else if mode = pmLine then
    let polygonMode := vkPolygonModeLine
    let polygonMode := vkPolygonModePoint
    (polygonMode, some "Invalid polygon mode")
  else if mode = pmPoint then
    let polygonMode := vkPolygonModePoint
    (polygonMode, some "Invalid polygon mode")
  else
    (polygonMode, some "Invalid polygon mode")

/- engine::CullFace codes (modelled, OpenGL enumerants). -/
def cfFront : Nat := 0x404
def cfBack : Nat := 0x405
def cfFrontAndBack : Nat := 0x408

/- Vulkan cull-mode flag bits. -/
def vkCullModeFrontBit : Nat := 1
def vkCullModeBackBit : Nat := 2

/-- PackedPipelineState::SetCullMode, with the source switch translated
literally (the cases likewise fall through to the throwing default).
With culling disabled the member is cleared and no error is raised. -/
def SetCullMode (cullMode : Nat) (enable : Bool) (mode : Nat) : Nat × Option String :=
  if !enable then (0, none)
  else if mode = cfFront then
    let cullMode := vkCullModeFrontBit
    let cullMode := vkCullModeBackBit
    let cullMode := vkCullModeFrontBit ||| vkCullModeBackBit
    (cullMode, some "Invalid cull mode")
  else if mode = cfBack then
    let cullMode := vkCullModeBackBit
    let cullMode := vkCullModeFrontBit ||| vkCullModeBackBit
    (cullMode, some "Invalid cull mode")
  else if mode = cfFrontAndBack then
    let cullMode := vkCullModeFrontBit ||| vkCullModeBackBit
    (cullMode, some "Invalid cull mode")
  else
    (cullMode, some "Invalid cull mode")

/- engine::CompareFunc bounds, forced by the conversion arithmetic:
D3DNever = 1, D3DAlways = 8, OglNever = 0x200, OglAlways = 0x207. -/
def cfD3DNever : Nat := 1
def cfD3DAlways : Nat := 8
def cfOglNever : Nat := 0x200
def cfOglAlways : Nat := 0x207

/-- ConvertCompareFunc: valid inputs are the two enumerant ranges; VK
CompareOp values match 1:1 with some small maths. -/
def ConvertCompareFunc (f : Nat) : Except String Nat :=
  if f < cfD3DNever ∨ f > cfOglAlways ∨ (f > cfD3DAlways ∧ f < cfOglNever) then
    Except.error "Invalid comparision function"
  else
    Except.ok (if f ≥ cfOglNever then f - 0x200 else f - 1)

/- engine::StencilOps::Op codes (modelled: D3D enumerants 1..8, OpenGL
enumerants their GL values). -/
def soOglZero : Nat := 0
def soD3DKeep : Nat := 1
def soD3DZero : Nat := 2
def soD3DReplace : Nat := 3
def soD3DIncrSat : Nat := 4
def soD3DDecrSat : Nat := 5
def soD3DInvert : Nat := 6
def soD3DIncr : Nat := 7
def soD3DDecr : Nat := 8
def soOglKeep : Nat := 0x1E00
def soOglReplace : Nat := 0x1E01
def soOglIncrSat : Nat := 0x1E02
def soOglDecrSat : Nat := 0x1E03
def soOglInvert : Nat := 0x150A
def soOglIncr : Nat := 0x8507
def soOglDecr : Nat := 0x8508

/- vk::StencilOp codes. -/
def vkStencilOpKeep : Nat := 0
def vkStencilOpZero : Nat := 1
def vkStencilOpReplace : Nat := 2
def vkStencilOpIncrementAndClamp : Nat := 3
def vkStencilOpDecrementAndClamp : Nat := 4
def vkStencilOpInvert : Nat := 5
def vkStencilOpIncrementAndWrap : Nat := 6
def vkStencilOpDecrementAndWrap : Nat := 7

/-- ConvertStencilOp: each D3D/OpenGL enumerant pair maps to one VK op;
anything else raises the unsupported-configuration error. -/
def ConvertStencilOp (op : Nat) : Except String Nat :=
  if op = soOglZero ∨ op = soD3DZero then Except.ok vkStencilOpZero
  else if op = soD3DKeep ∨ op = soOglKeep then Except.ok vkStencilOpKeep
  else if op = soD3DReplace ∨ op = soOglReplace then Except.ok vkStencilOpReplace
  else if op = soD3DIncrSat ∨ op = soOglIncrSat then Except.ok vkStencilOpIncrementAndClamp
  else if op = soD3DDecrSat ∨ op = soOglDecrSat then Except.ok vkStencilOpDecrementAndClamp
  else if op = soD3DInvert ∨ op = soOglInvert then Except.ok vkStencilOpInvert
  else if op = soD3DIncr ∨ op = soOglIncr then Except.ok vkStencilOpIncrementAndWrap
  else if op = soD3DDecr ∨ op = soOglDecr then Except.ok vkStencilOpDecrementAndWrap
  else Except.error "Invalid stencil operation"

/-- The engine stencilOps register group. -/
structure StencilOpsRegisters where
  zPass : Nat
  fail : Nat
  zFail : Nat
  func : Nat
deriving DecidableEq

/-- One face of packed stencil state. -/
structure PackedStencilOps where
  zPass : Nat
  fail : Nat
  zFail : Nat
  func : Nat
deriving DecidableEq

/-- PackStencilOps: convert the four fields of a stencilOps register group
in declaration order. -/
def PackStencilOps (ops : StencilOpsRegisters) : Except String PackedStencilOps := do
  let zPass ← ConvertStencilOp ops.zPass
  let fail ← ConvertStencilOp ops.fail
  let zFail ← ConvertStencilOp ops.zFail
  let func ← ConvertCompareFunc ops.func
  Except.ok { zPass := zPass, fail := fail, zFail := zFail, func := func }

/-- The register subset read by DepthStencilState::Flush. -/
structure DepthStencilRegisters where
  depthTestEnable : Nat
  depthWriteEnable : Nat
  depthFunc : Nat
  depthBoundsTestEnable : Nat
  stencilTestEnable : Nat
  twoSidedStencilTestEnable : Nat
  stencilOps : StencilOpsRegisters
  stencilBack : StencilOpsRegisters
deriving DecidableEq

/-- The depth-stencil fragment of the packed pipeline state. -/
structure PackedDepthStencilState where
  depthTestEnable : Nat
  depthWriteEnable : Nat
  depthFunc : Nat
  depthBoundsTestEnable : Nat
  stencilTestEnable : Nat
  stencilFront : PackedStencilOps
  stencilBack : PackedStencilOps
deriving DecidableEq

/-- DepthStencilState::Flush: the two-sided selection of the back-face ops
is computed into a local that is never used; SetStencilOps is invoked
with the front-face ops for both faces. -/
def DepthStencilStateFlush (e : DepthStencilRegisters) : Except String PackedDepthStencilState := do
  let depthFunc ← ConvertCompareFunc e.depthFunc
  let _stencilBack := if e.twoSidedStencilTestEnable ≠ 0 then e.stencilBack else e.stencilOps
  let front ← PackStencilOps e.stencilOps
  let back ← PackStencilOps e.stencilOps
  Except.ok { depthTestEnable := e.depthTestEnable, depthWriteEnable := e.depthWriteEnable,
              depthFunc := depthFunc, depthBoundsTestEnable := e.depthBoundsTestEnable,
              stencilTestEnable := e.stencilTestEnable, stencilFront := front,
              stencilBack := back }

/-!
Render-target translators.  The engine::ColorTarget::Format and
engine::ZtFormat codes live in headers not under src; they are modelled
as distinct codes (Disabled = 0, the remaining colour formats numbered
consecutively from 0xC0 in source order, the depth formats given small
distinct codes around ZF32).  The host texture formats are an inductive
type carrying the names used in the source table.
-/

/-- Host (skyline::gpu::format) texture formats referenced by the
conversion tables. -/
inductive TexFormat where
  | R32G32B32A32Float | R32G32B32A32Sint | R32G32B32A32Uint
  | R16G16B16A16Unorm | R16G16B16A16Snorm | R16G16B16A16Sint | R16G16B16A16Uint
  | R16G16B16A16Float
  | R32G32Float | R32G32Sint | R32G32Uint
  | B8G8R8A8Unorm | B8G8R8A8Srgb
  | A2B10G10R10Unorm | A2B10G10R10Uint
  | R8G8B8A8Unorm | R8G8B8A8Srgb | R8G8B8A8Snorm | R8G8B8A8Sint
  | R16G16Unorm | R16G16Snorm | R16G16Sint | R16G16Uint | R16G16Float
  | B10G11R11Float
  | R32Sint | R32Uint | R32Float
  | R5G6B5Unorm | A1R5G5B5Unorm
  | R8G8Unorm | R8G8Snorm | R8G8Sint | R8G8Uint
  | R16Unorm | R16Snorm | R16Sint | R16Uint | R16Float
  | R8Unorm | R8Snorm | R8Sint | R8Uint
  | D16Unorm | S8UintD24Unorm | D24UnormX8Uint | D24UnormS8Uint
  | S8Uint | D32Float | D32FloatS8Uint
deriving DecidableEq

/- engine::ColorTarget::Format codes (modelled; Disabled = 0 is the
sentinel stored for a disabled target). -/
def ctfDisabled : Nat := 0x00
def ctfRF32GF32BF32AF32 : Nat := 0xC0
def ctfRS32GS32BS32AS32 : Nat := 0xC1
def ctfRU32GU32BU32AU32 : Nat := 0xC2
def ctfRF32GF32BF32X32 : Nat := 0xC3
def ctfRS32GS32BS32X32 : Nat := 0xC4
def ctfRU32GU32BU32X32 : Nat := 0xC5
def ctfR16G16B16A16 : Nat := 0xC6
def ctfRN16GN16BN16AN16 : Nat := 0xC7
def ctfRS16GS16BS16AS16 : Nat := 0xC8
def ctfRU16GU16BU16AU16 : Nat := 0xC9
def ctfRF16GF16BF16AF16 : Nat := 0xCA
def ctfRF32GF32 : Nat := 0xCB
def ctfRS32GS32 : Nat := 0xCC
def ctfRU32GU32 : Nat := 0xCD
def ctfRF16GF16BF16X16 : Nat := 0xCE
def ctfA8R8G8B8 : Nat := 0xCF
def ctfA8RL8GL8BL8 : Nat := 0xD0
def ctfA2B10G10R10 : Nat := 0xD1
def ctfAU2BU10GU10RU10 : Nat := 0xD2
def ctfA8B8G8R8 : Nat := 0xD5
def ctfA8BL8GL8RL8 : Nat := 0xD6
def ctfAN8BN8GN8RN8 : Nat := 0xD7
def ctfAS8BS8GS8RS8 : Nat := 0xD8
def ctfR16G16 : Nat := 0xDA
def ctfRN16GN16 : Nat := 0xDB
def ctfRS16GS16 : Nat := 0xDC
def ctfRU16GU16 : Nat := 0xDD
def ctfRF16GF16 : Nat := 0xDE
def ctfA2R10G10B10 : Nat := 0xDF
def ctfBF10GF11RF11 : Nat := 0xE0
def ctfRS32single : Nat := 0xE3
def ctfRU32single : Nat := 0xE4
def ctfRF32single : Nat := 0xE5
def ctfX8R8G8B8 : Nat := 0xE6
def ctfX8RL8GL8BL8 : Nat := 0xE7
def ctfR5G6B5 : Nat := 0xE8
def ctfA1R5G5B5 : Nat := 0xE9
def ctfG8R8 : Nat := 0xEA
def ctfGN8RN8 : Nat := 0xEB
def ctfGS8RS8 : Nat := 0xEC
def ctfGU8RU8 : Nat := 0xED
def ctfR16single : Nat := 0xEE
def ctfRN16single : Nat := 0xEF
def ctfRS16single : Nat := 0xF0
def ctfRU16single : Nat := 0xF1
def ctfRF16single : Nat := 0xF2
def ctfR8 : Nat := 0xF3
def ctfRN8 : Nat := 0xF4
def ctfRS8 : Nat := 0xF5
def ctfRU8 : Nat := 0xF6
def ctfX1R5G5B5 : Nat := 0xF8
def ctfX8B8G8R8 : Nat := 0xF9
def ctfX8BL8GL8RL8 : Nat := 0xFA
def ctfZ1R5G5B5 : Nat := 0xFB
def ctfO1R5G5B5 : Nat := 0xFC
def ctfZ8R8G8B8 : Nat := 0xFD
def ctfO8R8G8B8 : Nat := 0xFE

/-- The colour render-target conversion table, in source order.  The
entries marked as partially supported in the source (FORMAT_CASE_WARN,
an ignored X/Z/O channel) map to the same host formats as their fully
supported counterparts. -/
def colorRenderTargetFormatTable : List (Nat × TexFormat) := [
  (ctfRF32GF32BF32AF32, TexFormat.R32G32B32A32Float),
  (ctfRS32GS32BS32AS32, TexFormat.R32G32B32A32Sint),
  (ctfRU32GU32BU32AU32, TexFormat.R32G32B32A32Uint),
  (ctfRF32GF32BF32X32, TexFormat.R32G32B32A32Float),
  (ctfRS32GS32BS32X32, TexFormat.R32G32B32A32Sint),
  (ctfRU32GU32BU32X32, TexFormat.R32G32B32A32Uint),
  (ctfR16G16B16A16, TexFormat.R16G16B16A16Unorm),
  (ctfRN16GN16BN16AN16, TexFormat.R16G16B16A16Snorm),
  (ctfRS16GS16BS16AS16, TexFormat.R16G16B16A16Sint),
  (ctfRU16GU16BU16AU16, TexFormat.R16G16B16A16Uint),
  (ctfRF16GF16BF16AF16, TexFormat.R16G16B16A16Float),
  (ctfRF32GF32, TexFormat.R32G32Float),
  (ctfRS32GS32, TexFormat.R32G32Sint),
  (ctfRU32GU32, TexFormat.R32G32Uint),
  (ctfRF16GF16BF16X16, TexFormat.R16G16B16A16Float),
  (ctfA8R8G8B8, TexFormat.B8G8R8A8Unorm),
  (ctfA8RL8GL8BL8, TexFormat.B8G8R8A8Srgb),
  (ctfA2B10G10R10, TexFormat.A2B10G10R10Unorm),
  (ctfAU2BU10GU10RU10, TexFormat.A2B10G10R10Uint),
  (ctfA8B8G8R8, TexFormat.R8G8B8A8Unorm),
  (ctfA8BL8GL8RL8, TexFormat.R8G8B8A8Srgb),
  (ctfAN8BN8GN8RN8, TexFormat.R8G8B8A8Snorm),
  (ctfAS8BS8GS8RS8, TexFormat.R8G8B8A8Sint),
  (ctfR16G16, TexFormat.R16G16Unorm),
  (ctfRN16GN16, TexFormat.R16G16Snorm),
  (ctfRS16GS16, TexFormat.R16G16Sint),
  (ctfRU16GU16, TexFormat.R16G16Uint),
  (ctfRF16GF16, TexFormat.R16G16Float),
  (ctfA2R10G10B10, TexFormat.A2B10G10R10Unorm),
  (ctfBF10GF11RF11, TexFormat.B10G11R11Float),
  (ctfRS32single, TexFormat.R32Sint),
  (ctfRU32single, TexFormat.R32Uint),
  (ctfRF32single, TexFormat.R32Float),
  (ctfX8R8G8B8, TexFormat.B8G8R8A8Unorm),
  (ctfX8RL8GL8BL8, TexFormat.B8G8R8A8Srgb),
  (ctfR5G6B5, TexFormat.R5G6B5Unorm),
  (ctfA1R5G5B5, TexFormat.A1R5G5B5Unorm),
  (ctfG8R8, TexFormat.R8G8Unorm),
  (ctfGN8RN8, TexFormat.R8G8Snorm),
  (ctfGS8RS8, TexFormat.R8G8Sint),
  (ctfGU8RU8, TexFormat.R8G8Uint),
  (ctfR16single, TexFormat.R16Unorm),
  (ctfRN16single, TexFormat.R16Snorm),
  (ctfRS16single, TexFormat.R16Sint),
  (ctfRU16single, TexFormat.R16Uint),
  (ctfRF16single, TexFormat.R16Float),
  (ctfR8, TexFormat.R8Unorm),
  (ctfRN8, TexFormat.R8Snorm),
  (ctfRS8, TexFormat.R8Sint),
  (ctfRU8, TexFormat.R8Uint),
  (ctfX1R5G5B5, TexFormat.A1R5G5B5Unorm),
  (ctfX8B8G8R8, TexFormat.R8G8B8A8Unorm),
  (ctfX8BL8GL8RL8, TexFormat.R8G8B8A8Srgb),
  (ctfZ1R5G5B5, TexFormat.A1R5G5B5Unorm),
  (ctfO1R5G5B5, TexFormat.A1R5G5B5Unorm),
  (ctfZ8R8G8B8, TexFormat.B8G8R8A8Unorm),
  (ctfO8R8G8B8, TexFormat.B8G8R8A8Unorm)]

/-- ConvertColorRenderTargetFormat: formats outside the table raise the
unsupported-configuration error. -/
def ConvertColorRenderTargetFormat (c : Nat) : Except String TexFormat :=
  match colorRenderTargetFormatTable.lookup c with
  | some f => Except.ok f
  | none => Except.error "Unsupported colour rendertarget format"

/- engine::ZtFormat codes (modelled). -/
def ztfZF32 : Nat := 0x0A
def ztfZ16 : Nat := 0x13
def ztfZ24S8 : Nat := 0x14
def ztfX8Z24 : Nat := 0x15
def ztfS8Z24 : Nat := 0x16
def ztfS8 : Nat := 0x17
def ztfZF32X24S8 : Nat := 0x19

/-- ConvertDepthRenderTargetFormat. -/
def ConvertDepthRenderTargetFormat (c : Nat) : Except String TexFormat :=
  if c = ztfZ16 then Except.ok TexFormat.D16Unorm
  else if c = ztfZ24S8 then Except.ok TexFormat.S8UintD24Unorm
  else if c = ztfX8Z24 then Except.ok TexFormat.D24UnormX8Uint
  else if c = ztfS8Z24 then Except.ok TexFormat.D24UnormS8Uint
  else if c = ztfS8 then Except.ok TexFormat.S8Uint
  else if c = ztfZF32 then Except.ok TexFormat.D32Float
  else if c = ztfZF32X24S8 then Except.ok TexFormat.D32FloatS8Uint
  else Except.error "Unsupported depth rendertarget format"

/-- Bytes per block of a host format.  Modelled: the format tables live in
gpu/texture/format.h (not under src); only the pitch-layout width
division reads this. -/
def bpb : TexFormat → Nat
  | TexFormat.R32G32B32A32Float | TexFormat.R32G32B32A32Sint | TexFormat.R32G32B32A32Uint => 16
  | TexFormat.R16G16B16A16Unorm | TexFormat.R16G16B16A16Snorm | TexFormat.R16G16B16A16Sint
  | TexFormat.R16G16B16A16Uint | TexFormat.R16G16B16A16Float
  | TexFormat.R32G32Float | TexFormat.R32G32Sint | TexFormat.R32G32Uint
  | TexFormat.D32FloatS8Uint => 8
  | TexFormat.B8G8R8A8Unorm | TexFormat.B8G8R8A8Srgb
  | TexFormat.A2B10G10R10Unorm | TexFormat.A2B10G10R10Uint
  | TexFormat.R8G8B8A8Unorm | TexFormat.R8G8B8A8Srgb | TexFormat.R8G8B8A8Snorm
  | TexFormat.R8G8B8A8Sint
  | TexFormat.R16G16Unorm | TexFormat.R16G16Snorm | TexFormat.R16G16Sint
  | TexFormat.R16G16Uint | TexFormat.R16G16Float
  | TexFormat.B10G11R11Float
  | TexFormat.R32Sint | TexFormat.R32Uint | TexFormat.R32Float
  | TexFormat.S8UintD24Unorm | TexFormat.D24UnormX8Uint | TexFormat.D24UnormS8Uint
  | TexFormat.D32Float => 4
  | TexFormat.R5G6B5Unorm | TexFormat.A1R5G5B5Unorm
  | TexFormat.R8G8Unorm | TexFormat.R8G8Snorm | TexFormat.R8G8Sint | TexFormat.R8G8Uint
  | TexFormat.R16Unorm | TexFormat.R16Snorm | TexFormat.R16Sint | TexFormat.R16Uint
  | TexFormat.R16Float | TexFormat.D16Unorm => 2
  | TexFormat.R8Unorm | TexFormat.R8Snorm | TexFormat.R8Sint | TexFormat.R8Uint
  | TexFormat.S8Uint => 1

/-- Image view dimensionality of a requested view. -/
inductive ViewType where
  | e1D
  | e2D
  | e2DArray
deriving DecidableEq

/-- The resource-view descriptor assembled by a render-target translator
(the GuestTexture handed to the external texture manager; address
translation of the mapping ranges is the external memory collaborator
and out of scope). -/
structure GuestTexture where
  format : TexFormat
  baseArrayLayer : Nat
  layerCount : Nat
  viewType : ViewType
  width : Nat
  height : Nat
  depth : Nat
  tileModeLinear : Bool
  blockHeight : Nat
  blockDepth : Nat
  layerStride : Nat
  gpuAddress : Nat
deriving DecidableEq

/- engine::TargetMemory layout and third-dimension control codes
(modelled). -/
def layoutBlockLinear : Nat := 0
def layoutPitch : Nat := 1
def tdcThirdDimensionDefinesArraySize : Nat := 0
def tdcThirdDimensionDefinesDepthSize : Nat := 1

/-- The register subset read by ColorRenderTargetState::Flush for one
target. -/
structure ColorTargetRegisters where
  format : Nat
  width : Nat
  height : Nat
  thirdDimension : Nat
  layerOffset : Nat
  offset : Nat
  memoryLayout : Nat
  thirdDimensionControl : Nat
  blockHeight : Nat
  blockDepth : Nat
  arrayPitch : Nat
deriving DecidableEq

/-- ColorRenderTargetState::Flush: store the raw format code into the
packed state (first component, a u8 field); a Disabled format yields a
null view with no conversion and no view request; otherwise assemble the
view descriptor. -/
def ColorRenderTargetStateFlush (t : ColorTargetRegisters) :
    Except String (Nat × Option GuestTexture) :=
  let packedFormat := t.format % 2 ^ 8
  if t.format = ctfDisabled then Except.ok (packedFormat, none)
  else do
    let fmt ← ConvertColorRenderTargetFormat t.format
    let layerCount := if t.thirdDimensionControl = tdcThirdDimensionDefinesArraySize
                      then t.thirdDimension else 1
    let viewType := if 1 < t.thirdDimension then ViewType.e2DArray else ViewType.e2D
    let depth := if t.thirdDimensionControl = tdcThirdDimensionDefinesArraySize
                 then 1 else t.thirdDimension
    let layerStride := if 1 < t.layerOffset ∨ 1 < layerCount then t.arrayPitch else 0
    if t.memoryLayout = layoutPitch then
      Except.ok (packedFormat, some
        { format := fmt, baseArrayLayer := t.layerOffset, layerCount := layerCount,
          viewType := viewType, width := t.width / bpb fmt, height := t.height, depth := depth,
          tileModeLinear := true, blockHeight := 0, blockDepth := 0,
          layerStride := layerStride, gpuAddress := t.offset })
    else
      Except.ok (packedFormat, some
        { format := fmt, baseArrayLayer := t.layerOffset, layerCount := layerCount,
          viewType := viewType, width := t.width, height := t.height, depth := depth,
          tileModeLinear := false, blockHeight := t.blockHeight, blockDepth := t.blockDepth,
          layerStride := layerStride, gpuAddress := t.offset })

/- engine::ZtSize::Control codes (modelled). -/
def ztControlThirdDimensionDefinesArraySize : Nat := 0
def ztControlArraySizeIsOne : Nat := 1

/-- The register subset read by DepthRenderTargetState::Flush. -/
structure DepthTargetRegisters where
  ztFormat : Nat
  ztWidth : Nat
  ztHeight : Nat
  ztThirdDimension : Nat
  ztControl : Nat
  ztLayerOffset : Nat
  ztOffset : Nat
  ztBlockHeight : Nat
  ztBlockDepth : Nat
  ztArrayPitch : Nat
  ztTargetCount : Nat
deriving DecidableEq

/-- DepthRenderTargetState::Flush: the packed depth format field (a u8,
computed as the format code minus the ZF32 code with u8 wraparound) is
written first; a zero targetCount in ztSelect then yields a null view
with no view request; otherwise assemble the view descriptor (in the
source, a control value that is neither enumerant leaves the
zero-initialized layer count and view type of GuestTexture). -/
def DepthRenderTargetStateFlush (e : DepthTargetRegisters) :
    Except String (Nat × Option GuestTexture) :=
  let packedFormat := (e.ztFormat + 2 ^ 8 - ztfZF32) % 2 ^ 8
  if e.ztTargetCount = 0 then Except.ok (packedFormat, none)
  else do
    let fmt ← ConvertDepthRenderTargetFormat e.ztFormat
    let layerCount := if e.ztControl = ztControlThirdDimensionDefinesArraySize
                      then e.ztThirdDimension
                      else if e.ztControl = ztControlArraySizeIsOne then 1 else 0
    let viewType := if e.ztControl = ztControlThirdDimensionDefinesArraySize
                    then ViewType.e2DArray
                    else if e.ztControl = ztControlArraySizeIsOne then ViewType.e2D
                    else ViewType.e1D
    let layerStride := if 1 < e.ztLayerOffset ∨ 1 < layerCount then e.ztArrayPitch else 0
    Except.ok (packedFormat, some
      { format := fmt, baseArrayLayer := e.ztLayerOffset, layerCount := layerCount,
        viewType := viewType, width := e.ztWidth, height := e.ztHeight, depth := 1,
        tileModeLinear := false, blockHeight := e.ztBlockHeight, blockDepth := e.ztBlockDepth,
        layerStride := layerStride, gpuAddress := e.ztOffset })

/-!
The engine-register bundles assembled at interconnect construction
(maxwell_3d.cpp, MakePipelineStateRegisters / MakeActiveStateRegisters).
Each register (or register array, merged by util::MergeInto) is
abstracted to one word of the register file; the bundles mirror the
aggregate initializers of the source field for field.
-/

/-- The engine registers referenced by the bundle constructors.  Every
field is one register (or one merged register array) of
Maxwell3D::Registers. -/
structure MaxwellRegisters where
  colorTargets : Nat
  ztSize : Nat
  ztOffset : Nat
  ztFormat : Nat
  ztBlockSize : Nat
  ztArrayPitch : Nat
  ztSelect : Nat
  ztLayer : Nat
  vertexStreams : Nat
  vertexStreamInstance : Nat
  vertexAttributes : Nat
  primitiveRestartEnable : Nat
  patchSize : Nat
  tessellationParameters : Nat
  rasterEnable : Nat
  frontPolygonMode : Nat
  backPolygonMode : Nat
  oglCullEnable : Nat
  oglCullFace : Nat
  windowOrigin : Nat
  oglFrontFace : Nat
  viewportClipControl : Nat
  polyOffset : Nat
  provokingVertex : Nat
  vertexStreamLimits : Nat
  indexBuffer : Nat
  streamOutBuffers : Nat
  streamOutEnable : Nat
  viewports : Nat
  viewportClips : Nat
  viewportScaleOffsetEnable : Nat
  scissors : Nat
  lineWidth : Nat
  lineWidthAliased : Nat
  aliasedLineWidthEnable : Nat
  depthBias : Nat
  depthBiasClamp : Nat
  slopeScaleDepthBias : Nat
  blendConsts : Nat
  depthBoundsMin : Nat
  depthBoundsMax : Nat
  stencilValues : Nat
  backStencilValues : Nat
  twoSidedStencilTestEnable : Nat
deriving DecidableEq

/-- PipelineState::EngineRegisters as assembled by
MakePipelineStateRegisters. -/
structure PipelineStateEngineRegisters where
  colorRenderTargetsRegisters : Nat
  depthRenderTargetRegisters : Nat × Nat × Nat × Nat × Nat × Nat × Nat
  vertexInputRegisters : Nat × Nat × Nat
  inputAssemblyRegisters : Nat
  tessellationRegisters : Nat × Nat
  rasterizationRegisters : Nat × Nat × Nat × Nat × Nat × Nat × Nat × Nat × Nat × Nat

/-- ActiveState::EngineRegisters as assembled by MakeActiveStateRegisters. -/
structure ActiveStateEngineRegisters where
  pipelineRegisters : PipelineStateEngineRegisters
  vertexBuffersRegisters : Nat × Nat
  indexBufferRegisters : Nat
  transformFeedbackBuffersRegisters : Nat × Nat
  viewportsRegisters : Nat × Nat × Nat × Nat
  scissorsRegisters : Nat
  lineWidthRegisters : Nat × Nat × Nat
  depthBiasRegisters : Nat × Nat × Nat
  blendConstantsRegisters : Nat
  depthBoundsRegisters : Nat × Nat
  stencilValuesRegisters : Nat × Nat × Nat

/-- MakePipelineStateRegisters. -/
def MakePipelineStateRegisters (r : MaxwellRegisters) : PipelineStateEngineRegisters :=
  { colorRenderTargetsRegisters := r.colorTargets,
    depthRenderTargetRegisters :=
      (r.ztSize, r.ztOffset, r.ztFormat, r.ztBlockSize, r.ztArrayPitch, r.ztSelect, r.ztLayer),
    vertexInputRegisters := (r.vertexStreams, r.vertexStreamInstance, r.vertexAttributes),
    inputAssemblyRegisters := r.primitiveRestartEnable,
    tessellationRegisters := (r.patchSize, r.tessellationParameters),
    rasterizationRegisters :=
      (r.rasterEnable, r.frontPolygonMode, r.backPolygonMode, r.oglCullEnable, r.oglCullFace,
       r.windowOrigin, r.oglFrontFace, r.viewportClipControl, r.polyOffset, r.provokingVertex) }

/-- MakeActiveStateRegisters: the depth-bounds bundle is initialized from
registers.depthBoundsMin twice, exactly as in the source. -/
def MakeActiveStateRegisters (r : MaxwellRegisters) : ActiveStateEngineRegisters :=
  { pipelineRegisters := MakePipelineStateRegisters r,
    vertexBuffersRegisters := (r.vertexStreams, r.vertexStreamLimits),
    indexBufferRegisters := r.indexBuffer,
    transformFeedbackBuffersRegisters := (r.streamOutBuffers, r.streamOutEnable),
    viewportsRegisters := (r.viewports, r.viewportClips, r.windowOrigin, r.viewportScaleOffsetEnable),
    scissorsRegisters := r.scissors,
    lineWidthRegisters := (r.lineWidth, r.lineWidthAliased, r.aliasedLineWidthEnable),
    depthBiasRegisters := (r.depthBias, r.depthBiasClamp, r.slopeScaleDepthBias),
    blendConstantsRegisters := (r.blendConsts),
    depthBoundsRegisters := (r.depthBoundsMin, r.depthBoundsMin),
    stencilValuesRegisters := (r.stencilValues, r.backStencilValues, r.twoSidedStencilTestEnable) }

/-!
Concrete inputs used to instantiate the theorems below.
-/

/-- A begin argument carrying the Subsequent instance marker. -/
def beginSubArg : Nat := 2 ^ 26

/-- A state with a pending deferred draw (as left by a draw-count write and
three begin(Subsequent) writes). -/
def pendingState : EngineState :=
  { initState with
    dd := { pending := true, drawTopology := 3, indexed := false, drawCount := 5,
            drawFirst := 2, instanceCount := 4, drawBaseVertex := 1, drawBaseInstance := 6 } }

/-- Depth-stencil registers with valid conversion inputs, two-sided testing
enabled and distinctive back-face ops. -/
def dsRegs0 : DepthStencilRegisters :=
  { depthTestEnable := 1, depthWriteEnable := 1, depthFunc := 4, depthBoundsTestEnable := 0,
    stencilTestEnable := 1, twoSidedStencilTestEnable := 1,
    stencilOps := { zPass := soD3DKeep, fail := soD3DZero, zFail := soD3DReplace, func := 3 },
    stencilBack := { zPass := soOglInvert, fail := soOglDecr, zFail := soOglIncr, func := 0x205 } }

/-- The packed depth-stencil state produced for dsRegs0. -/
def dsPacked0 : PackedDepthStencilState :=
  { depthTestEnable := 1, depthWriteEnable := 1, depthFunc := 3, depthBoundsTestEnable := 0,
    stencilTestEnable := 1,
    stencilFront := { zPass := vkStencilOpKeep, fail := vkStencilOpZero,
                      zFail := vkStencilOpReplace, func := 2 },
    stencilBack := { zPass := vkStencilOpKeep, fail := vkStencilOpZero,
                     zFail := vkStencilOpReplace, func := 2 } }

/-- Colour-target registers with the format register Disabled. -/
def ctr0 : ColorTargetRegisters :=
  { format := ctfDisabled, width := 0, height := 0, thirdDimension := 0, layerOffset := 0,
    offset := 0, memoryLayout := 0, thirdDimensionControl := 0, blockHeight := 0,
    blockDepth := 0, arrayPitch := 0 }

/-- Depth-target registers with a zero target count. -/
def dtr0 : DepthTargetRegisters :=
  { ztFormat := ztfZ16, ztWidth := 0, ztHeight := 0, ztThirdDimension := 0, ztControl := 0,
    ztLayerOffset := 0, ztOffset := 0, ztBlockHeight := 0, ztBlockDepth := 0,
    ztArrayPitch := 0, ztTargetCount := 0 }

/-!
Helper lemmas about the dispatcher layers.
-/

theorem upd_self (f : Nat → Nat) (i v : Nat) : upd f i v i = v := by simp [upd]

theorem upd_other (f : Nat → Nat) (i v j : Nat) (h : j ≠ i) : upd f i v j = f j := by
  simp [upd, h]

theorem drawsOf_append (es fs : List Event) : drawsOf (es ++ fs) = drawsOf es ++ drawsOf fs := by
  simp [drawsOf, List.filter_append]

theorem lcbsOf_append (es fs : List Event) : lcbsOf (es ++ fs) = lcbsOf es ++ lcbsOf fs := by
  simp [lcbsOf, List.filter_append]

theorem clearsOf_append (es fs : List Event) : clearsOf (es ++ fs) = clearsOf es ++ clearsOf fs := by
  simp [clearsOf, List.filter_append]

theorem directCallsOf_append (es fs : List Event) :
    directCallsOf (es ++ fs) = directCallsOf es ++ directCallsOf fs := by
  simp [directCallsOf, List.filter_append]

/-- State-skeleton preservation: everything but the event trace is
unchanged, and the appended events contain no draw, no bulk
constant-buffer load, no direct-state call and no clear. -/
def Skel (s t : EngineState) : Prop :=
  t.regs = s.regs ∧ t.shadow = s.shadow ∧ t.batchBuffer = s.batchBuffer ∧
  t.batchStartOffset = s.batchStartOffset ∧ t.dd = s.dd ∧
  t.mmeCode = s.mmeCode ∧ t.mmePositions = s.mmePositions ∧ t.dirty = s.dirty ∧
  t.errors = s.errors ∧ drawsOf t.events = drawsOf s.events ∧
  lcbsOf t.events = lcbsOf s.events ∧ directCallsOf t.events = directCallsOf s.events ∧
  clearsOf t.events = clearsOf s.events

theorem skel_refl (s : EngineState) : Skel s s := by
  unfold Skel; exact ⟨rfl, rfl, rfl, rfl, rfl, rfl, rfl, rfl, rfl, rfl, rfl, rfl, rfl⟩

theorem skel_trans {s t u : EngineState} (h1 : Skel s t) (h2 : Skel t u) : Skel s u := by
  unfold Skel at *
  obtain ⟨a1, a2, a3, a4, a5, a6, a7, a8, a9, a10, a11, a12, a13⟩ := h1
  obtain ⟨b1, b2, b3, b4, b5, b6, b7, b8, b9, b10, b11, b12, b13⟩ := h2
  exact ⟨b1.trans a1, b2.trans a2, b3.trans a3, b4.trans a4, b5.trans a5, b6.trans a6,
    b7.trans a7, b8.trans a8, b9.trans a9, b10.trans a10, b11.trans a11, b12.trans a12,
    b13.trans a13⟩

theorem skel_push (s : EngineState) (e : Event)
    (hd : isDrawEvent e = false) (hl : isLcbEvent e = false)
    (hdc : isDirectStateEvent e = false) (hc : isClearEvent e = false) :
    Skel s { s with events := s.events ++ [e] } := by
  unfold Skel
  refine ⟨rfl, rfl, rfl, rfl, rfl, rfl, rfl, rfl, rfl, ?_, ?_, ?_, ?_⟩ <;>
    simp [drawsOf, lcbsOf, directCallsOf, clearsOf, List.filter_append, hd, hl, hdc, hc]

theorem logWarn_skel (s : EngineState) (msg : String) : Skel s (LogWarn s msg) :=
  skel_push s (Event.Warn msg) rfl rfl rfl rfl

theorem writeSemaphoreResult_skel (s : EngineState) (r : Nat) :
    Skel s (WriteSemaphoreResult s r) := by
  unfold WriteSemaphoreResult
  split <;> exact skel_push s _ rfl rfl rfl rfl

theorem semaphoreAction_skel (s : EngineState) (a : Nat) : Skel s (SemaphoreAction s a) := by
  unfold SemaphoreAction
  by_cases h : a / 2 ^ 17 % 2 = 1 <;> simp only [h, if_true, if_false, if_pos, if_neg] <;>
    split_ifs <;>
    first
      | exact skel_trans (logWarn_skel s _)
          (skel_trans (skel_push (LogWarn s _) Event.Submit rfl rfl rfl rfl)
            (writeSemaphoreResult_skel _ _))
      | exact skel_trans (logWarn_skel s _) (writeSemaphoreResult_skel _ _)
      | exact skel_trans (logWarn_skel s _) (logWarn_skel _ _)
      | exact skel_trans (logWarn_skel s _) (skel_refl _)
      | exact skel_trans (skel_push s Event.Submit rfl rfl rfl rfl)
          (writeSemaphoreResult_skel _ _)
      | exact writeSemaphoreResult_skel _ _
      | exact logWarn_skel _ _
      | exact skel_refl _

/-- The redundancy-gated layer only adds dirty marks and direct-state
events; everything else is untouched. -/
theorem dirtyAndDirect_frame (s : EngineState) (m a : Nat) (r : Bool) :
    (DirtyAndDirect s m a r).regs = s.regs ∧
    (DirtyAndDirect s m a r).shadow = s.shadow ∧
    (DirtyAndDirect s m a r).batchBuffer = s.batchBuffer ∧
    (DirtyAndDirect s m a r).batchStartOffset = s.batchStartOffset ∧
    (DirtyAndDirect s m a r).dd = s.dd ∧
    (DirtyAndDirect s m a r).mmeCode = s.mmeCode ∧
    (DirtyAndDirect s m a r).mmePositions = s.mmePositions ∧
    (DirtyAndDirect s m a r).errors = s.errors ∧
    drawsOf (DirtyAndDirect s m a r).events = drawsOf s.events ∧
    lcbsOf (DirtyAndDirect s m a r).events = lcbsOf s.events ∧
    clearsOf (DirtyAndDirect s m a r).events = clearsOf s.events := by
  unfold DirtyAndDirect
  split_ifs <;>
    (refine ⟨rfl, rfl, rfl, rfl, rfl, rfl, rfl, rfl, ?_, ?_, ?_⟩ <;>
      simp [drawsOf, lcbsOf, clearsOf, List.filter_append, isDrawEvent, isLcbEvent,
        isClearEvent])

/-- A redundant write skips the whole redundancy-gated layer. -/
theorem dirtyAndDirect_redundant (s : EngineState) (m a : Nat) :
    DirtyAndDirect s m a true = s := by
  unfold DirtyAndDirect; rfl

/-!
Characterizations of the method classifier.
-/

/-- Complete case description of the method classifier: which address
condition selected each case, and for the default case that no condition
held. -/
theorem methodCase_elim (m : Nat) :
    (methodCase m = MethodCase.instrRamLoad ∧ (m = mmeInstructionRamLoadAddr)) ∨
    (methodCase m = MethodCase.startAddressRamLoad ∧ (m = mmeStartAddressRamLoadAddr)) ∨
    (methodCase m = MethodCase.launchDma ∧ (m = i2mLaunchDmaAddr)) ∨
    (methodCase m = MethodCase.loadInlineData ∧ (m = i2mLoadInlineDataAddr)) ∨
    (methodCase m = MethodCase.syncpointAction ∧ (m = syncpointActionAddr)) ∨
    (methodCase m = MethodCase.clearSurface ∧ (m = clearSurfaceAddr)) ∨
    (methodCase m = MethodCase.begin ∧ (m = beginAddr)) ∨
    (methodCase m = MethodCase.drawVertexArrayCount ∧ (m = drawVertexArrayCountAddr)) ∨
    (methodCase m = MethodCase.drawIndexBufferCount ∧ (m = drawIndexBufferCountAddr)) ∨
    (methodCase m = MethodCase.semaphoreInfo ∧ (m = semaphoreInfoAddr)) ∨
    (methodCase m = MethodCase.firmwareCall4 ∧ (m = firmwareCallAddr4)) ∨
    (methodCase m = MethodCase.lcbData ∧ (isLcbDataAddr m)) ∨
    (methodCase m = MethodCase.bindGroupsCbuf ∧ (isBindGroupsCbufAddr m)) ∨
    (methodCase m = MethodCase.other ∧ ¬(m = mmeInstructionRamLoadAddr) ∧ ¬(m = mmeStartAddressRamLoadAddr) ∧ ¬(m = i2mLaunchDmaAddr) ∧ ¬(m = i2mLoadInlineDataAddr) ∧ ¬(m = syncpointActionAddr) ∧ ¬(m = clearSurfaceAddr) ∧ ¬(m = beginAddr) ∧ ¬(m = drawVertexArrayCountAddr) ∧ ¬(m = drawIndexBufferCountAddr) ∧ ¬(m = semaphoreInfoAddr) ∧ ¬(m = firmwareCallAddr4) ∧ ¬(isLcbDataAddr m) ∧ ¬(isBindGroupsCbufAddr m)) := by
  unfold methodCase
  by_cases h1 : m = mmeInstructionRamLoadAddr
  · rw [if_pos h1]
    exact Or.inl ⟨rfl, h1⟩
  · rw [if_neg h1]
    by_cases h2 : m = mmeStartAddressRamLoadAddr
    · rw [if_pos h2]
      exact Or.inr (Or.inl ⟨rfl, h2⟩)
    · rw [if_neg h2]
      by_cases h3 : m = i2mLaunchDmaAddr
      · rw [if_pos h3]
        exact Or.inr (Or.inr (Or.inl ⟨rfl, h3⟩))
      · rw [if_neg h3]
        by_cases h4 : m = i2mLoadInlineDataAddr
        · rw [if_pos h4]
          exact Or.inr (Or.inr (Or.inr (Or.inl ⟨rfl, h4⟩)))
        · rw [if_neg h4]
          by_cases h5 : m = syncpointActionAddr
          · rw [if_pos h5]
            exact Or.inr (Or.inr (Or.inr (Or.inr (Or.inl ⟨rfl, h5⟩))))
          · rw [if_neg h5]
            by_cases h6 : m = clearSurfaceAddr
            · rw [if_pos h6]
              exact Or.inr (Or.inr (Or.inr (Or.inr (Or.inr (Or.inl ⟨rfl, h6⟩)))))
            · rw [if_neg h6]
              by_cases h7 : m = beginAddr
              · rw [if_pos h7]
                exact Or.inr (Or.inr (Or.inr (Or.inr (Or.inr (Or.inr (Or.inl ⟨rfl, h7⟩))))))
              · rw [if_neg h7]
                by_cases h8 : m = drawVertexArrayCountAddr
                · rw [if_pos h8]
                  exact Or.inr (Or.inr (Or.inr (Or.inr (Or.inr (Or.inr (Or.inr (Or.inl ⟨rfl, h8⟩)))))))
                · rw [if_neg h8]
                  by_cases h9 : m = drawIndexBufferCountAddr
                  · rw [if_pos h9]
                    exact Or.inr (Or.inr (Or.inr (Or.inr (Or.inr (Or.inr (Or.inr (Or.inr (Or.inl ⟨rfl, h9⟩))))))))
                  · rw [if_neg h9]
                    by_cases h10 : m = semaphoreInfoAddr
                    · rw [if_pos h10]
                      exact Or.inr (Or.inr (Or.inr (Or.inr (Or.inr (Or.inr (Or.inr (Or.inr (Or.inr (Or.inl ⟨rfl, h10⟩)))))))))
                    · rw [if_neg h10]
                      by_cases h11 : m = firmwareCallAddr4
                      · rw [if_pos h11]
                        exact Or.inr (Or.inr (Or.inr (Or.inr (Or.inr (Or.inr (Or.inr (Or.inr (Or.inr (Or.inr (Or.inl ⟨rfl, h11⟩))))))))))
                      · rw [if_neg h11]
                        by_cases h12 : isLcbDataAddr m
                        · rw [if_pos h12]
                          exact Or.inr (Or.inr (Or.inr (Or.inr (Or.inr (Or.inr (Or.inr (Or.inr (Or.inr (Or.inr (Or.inr (Or.inl ⟨rfl, h12⟩)))))))))))
                        · rw [if_neg h12]
                          by_cases h13 : isBindGroupsCbufAddr m
                          · rw [if_pos h13]
                            exact Or.inr (Or.inr (Or.inr (Or.inr (Or.inr (Or.inr (Or.inr (Or.inr (Or.inr (Or.inr (Or.inr (Or.inr (Or.inl ⟨rfl, h13⟩))))))))))))
                          · rw [if_neg h13]
                            exact Or.inr (Or.inr (Or.inr (Or.inr (Or.inr (Or.inr (Or.inr (Or.inr (Or.inr (Or.inr (Or.inr (Or.inr (Or.inr (⟨rfl, h1, h2, h3, h4, h5, h6, h7, h8, h9, h10, h11, h12, h13⟩)))))))))))))

theorem methodCase_eq_instr {m : Nat} (h : methodCase m = MethodCase.instrRamLoad) :
    m = mmeInstructionRamLoadAddr := by
  rcases methodCase_elim m with ⟨he, hm⟩|⟨he, hm⟩|⟨he, hm⟩|⟨he, hm⟩|⟨he, hm⟩|⟨he, hm⟩|⟨he, hm⟩|⟨he, hm⟩|⟨he, hm⟩|⟨he, hm⟩|⟨he, hm⟩|⟨he, hm⟩|⟨he, hm⟩|⟨he, hm⟩ <;>
    first | exact MethodCase.noConfusion (he.symm.trans h) | exact hm

theorem methodCase_eq_saLoad {m : Nat} (h : methodCase m = MethodCase.startAddressRamLoad) :
    m = mmeStartAddressRamLoadAddr := by
  rcases methodCase_elim m with ⟨he, hm⟩|⟨he, hm⟩|⟨he, hm⟩|⟨he, hm⟩|⟨he, hm⟩|⟨he, hm⟩|⟨he, hm⟩|⟨he, hm⟩|⟨he, hm⟩|⟨he, hm⟩|⟨he, hm⟩|⟨he, hm⟩|⟨he, hm⟩|⟨he, hm⟩ <;>
    first | exact MethodCase.noConfusion (he.symm.trans h) | exact hm

theorem methodCase_eq_launchDma {m : Nat} (h : methodCase m = MethodCase.launchDma) :
    m = i2mLaunchDmaAddr := by
  rcases methodCase_elim m with ⟨he, hm⟩|⟨he, hm⟩|⟨he, hm⟩|⟨he, hm⟩|⟨he, hm⟩|⟨he, hm⟩|⟨he, hm⟩|⟨he, hm⟩|⟨he, hm⟩|⟨he, hm⟩|⟨he, hm⟩|⟨he, hm⟩|⟨he, hm⟩|⟨he, hm⟩ <;>
    first | exact MethodCase.noConfusion (he.symm.trans h) | exact hm

theorem methodCase_eq_loadInline {m : Nat} (h : methodCase m = MethodCase.loadInlineData) :
    m = i2mLoadInlineDataAddr := by
  rcases methodCase_elim m with ⟨he, hm⟩|⟨he, hm⟩|⟨he, hm⟩|⟨he, hm⟩|⟨he, hm⟩|⟨he, hm⟩|⟨he, hm⟩|⟨he, hm⟩|⟨he, hm⟩|⟨he, hm⟩|⟨he, hm⟩|⟨he, hm⟩|⟨he, hm⟩|⟨he, hm⟩ <;>
    first | exact MethodCase.noConfusion (he.symm.trans h) | exact hm

theorem methodCase_eq_sync {m : Nat} (h : methodCase m = MethodCase.syncpointAction) :
    m = syncpointActionAddr := by
  rcases methodCase_elim m with ⟨he, hm⟩|⟨he, hm⟩|⟨he, hm⟩|⟨he, hm⟩|⟨he, hm⟩|⟨he, hm⟩|⟨he, hm⟩|⟨he, hm⟩|⟨he, hm⟩|⟨he, hm⟩|⟨he, hm⟩|⟨he, hm⟩|⟨he, hm⟩|⟨he, hm⟩ <;>
    first | exact MethodCase.noConfusion (he.symm.trans h) | exact hm

theorem methodCase_eq_clear {m : Nat} (h : methodCase m = MethodCase.clearSurface) :
    m = clearSurfaceAddr := by
  rcases methodCase_elim m with ⟨he, hm⟩|⟨he, hm⟩|⟨he, hm⟩|⟨he, hm⟩|⟨he, hm⟩|⟨he, hm⟩|⟨he, hm⟩|⟨he, hm⟩|⟨he, hm⟩|⟨he, hm⟩|⟨he, hm⟩|⟨he, hm⟩|⟨he, hm⟩|⟨he, hm⟩ <;>
    first | exact MethodCase.noConfusion (he.symm.trans h) | exact hm

theorem methodCase_eq_begin {m : Nat} (h : methodCase m = MethodCase.begin) :
    m = beginAddr := by
  rcases methodCase_elim m with ⟨he, hm⟩|⟨he, hm⟩|⟨he, hm⟩|⟨he, hm⟩|⟨he, hm⟩|⟨he, hm⟩|⟨he, hm⟩|⟨he, hm⟩|⟨he, hm⟩|⟨he, hm⟩|⟨he, hm⟩|⟨he, hm⟩|⟨he, hm⟩|⟨he, hm⟩ <;>
    first | exact MethodCase.noConfusion (he.symm.trans h) | exact hm

theorem methodCase_eq_dva {m : Nat} (h : methodCase m = MethodCase.drawVertexArrayCount) :
    m = drawVertexArrayCountAddr := by
  rcases methodCase_elim m with ⟨he, hm⟩|⟨he, hm⟩|⟨he, hm⟩|⟨he, hm⟩|⟨he, hm⟩|⟨he, hm⟩|⟨he, hm⟩|⟨he, hm⟩|⟨he, hm⟩|⟨he, hm⟩|⟨he, hm⟩|⟨he, hm⟩|⟨he, hm⟩|⟨he, hm⟩ <;>
    first | exact MethodCase.noConfusion (he.symm.trans h) | exact hm

theorem methodCase_eq_dib {m : Nat} (h : methodCase m = MethodCase.drawIndexBufferCount) :
    m = drawIndexBufferCountAddr := by
  rcases methodCase_elim m with ⟨he, hm⟩|⟨he, hm⟩|⟨he, hm⟩|⟨he, hm⟩|⟨he, hm⟩|⟨he, hm⟩|⟨he, hm⟩|⟨he, hm⟩|⟨he, hm⟩|⟨he, hm⟩|⟨he, hm⟩|⟨he, hm⟩|⟨he, hm⟩|⟨he, hm⟩ <;>
    first | exact MethodCase.noConfusion (he.symm.trans h) | exact hm

theorem methodCase_eq_sem {m : Nat} (h : methodCase m = MethodCase.semaphoreInfo) :
    m = semaphoreInfoAddr := by
  rcases methodCase_elim m with ⟨he, hm⟩|⟨he, hm⟩|⟨he, hm⟩|⟨he, hm⟩|⟨he, hm⟩|⟨he, hm⟩|⟨he, hm⟩|⟨he, hm⟩|⟨he, hm⟩|⟨he, hm⟩|⟨he, hm⟩|⟨he, hm⟩|⟨he, hm⟩|⟨he, hm⟩ <;>
    first | exact MethodCase.noConfusion (he.symm.trans h) | exact hm

theorem methodCase_eq_fc4 {m : Nat} (h : methodCase m = MethodCase.firmwareCall4) :
    m = firmwareCallAddr4 := by
  rcases methodCase_elim m with ⟨he, hm⟩|⟨he, hm⟩|⟨he, hm⟩|⟨he, hm⟩|⟨he, hm⟩|⟨he, hm⟩|⟨he, hm⟩|⟨he, hm⟩|⟨he, hm⟩|⟨he, hm⟩|⟨he, hm⟩|⟨he, hm⟩|⟨he, hm⟩|⟨he, hm⟩ <;>
    first | exact MethodCase.noConfusion (he.symm.trans h) | exact hm

theorem methodCase_eq_lcbData {m : Nat} (h : methodCase m = MethodCase.lcbData) :
    isLcbDataAddr m := by
  rcases methodCase_elim m with ⟨he, hm⟩|⟨he, hm⟩|⟨he, hm⟩|⟨he, hm⟩|⟨he, hm⟩|⟨he, hm⟩|⟨he, hm⟩|⟨he, hm⟩|⟨he, hm⟩|⟨he, hm⟩|⟨he, hm⟩|⟨he, hm⟩|⟨he, hm⟩|⟨he, hm⟩ <;>
    first | exact MethodCase.noConfusion (he.symm.trans h) | exact hm

theorem methodCase_eq_bindGroups {m : Nat} (h : methodCase m = MethodCase.bindGroupsCbuf) :
    isBindGroupsCbufAddr m := by
  rcases methodCase_elim m with ⟨he, hm⟩|⟨he, hm⟩|⟨he, hm⟩|⟨he, hm⟩|⟨he, hm⟩|⟨he, hm⟩|⟨he, hm⟩|⟨he, hm⟩|⟨he, hm⟩|⟨he, hm⟩|⟨he, hm⟩|⟨he, hm⟩|⟨he, hm⟩|⟨he, hm⟩ <;>
    first | exact MethodCase.noConfusion (he.symm.trans h) | exact hm

theorem methodCase_eq_other {m : Nat} (h : methodCase m = MethodCase.other) :
    ¬(m = mmeInstructionRamLoadAddr) ∧ ¬(m = mmeStartAddressRamLoadAddr) ∧ ¬(m = i2mLaunchDmaAddr) ∧ ¬(m = i2mLoadInlineDataAddr) ∧ ¬(m = syncpointActionAddr) ∧ ¬(m = clearSurfaceAddr) ∧ ¬(m = beginAddr) ∧ ¬(m = drawVertexArrayCountAddr) ∧ ¬(m = drawIndexBufferCountAddr) ∧ ¬(m = semaphoreInfoAddr) ∧ ¬(m = firmwareCallAddr4) ∧ ¬(isLcbDataAddr m) ∧ ¬(isBindGroupsCbufAddr m) := by
  rcases methodCase_elim m with ⟨he, hm⟩|⟨he, hm⟩|⟨he, hm⟩|⟨he, hm⟩|⟨he, hm⟩|⟨he, hm⟩|⟨he, hm⟩|⟨he, hm⟩|⟨he, hm⟩|⟨he, hm⟩|⟨he, hm⟩|⟨he, hm⟩|⟨he, hm⟩|⟨he, hm⟩ <;>
    first | exact MethodCase.noConfusion (he.symm.trans h) | exact hm

theorem lcbData_ne_offset {m : Nat} (h : isLcbDataAddr m) :
    m ≠ loadConstantBufferOffsetAddr := by
  unfold isLcbDataAddr loadConstantBufferDataBase at h
  unfold loadConstantBufferOffsetAddr
  omega

/-- The per-method switch never changes the register committed for the
handled method itself: every register it writes lives at a different
address than its triggering method. -/
theorem perMethodEffects_regs_self (s : EngineState) (m a : Nat) :
    (PerMethodEffects s m a).regs m = s.regs m := by
  rcases methodCase_elim m with ⟨he, hm⟩|⟨he, hm⟩|⟨he, hm⟩|⟨he, hm⟩|⟨he, hm⟩|⟨he, hm⟩|⟨he, hm⟩|⟨he, hm⟩|⟨he, hm⟩|⟨he, hm⟩|⟨he, hm⟩|⟨he, hm⟩|⟨he, hm⟩|⟨he, hm⟩ <;>
    simp only [PerMethodEffects, he] <;>
    first
      | rfl
      | exact congrFun (semaphoreAction_skel s a).1 m
      | exact upd_other _ _ _ _ (lcbData_ne_offset hm)
      | exact upd_other _ _ _ _ (by rw [hm]; decide)
      | (split <;> first
          | rfl
          | exact upd_other _ _ _ _ (by rw [hm]; decide))

/-- The per-method switch touches neither the shadow copy nor the dirty
marks, and emits no Draw, LoadConstantBuffer or direct-state event. -/
theorem perMethodEffects_frame (s : EngineState) (m a : Nat) :
    (PerMethodEffects s m a).shadow = s.shadow ∧
    (PerMethodEffects s m a).dirty = s.dirty ∧
    drawsOf (PerMethodEffects s m a).events = drawsOf s.events ∧
    lcbsOf (PerMethodEffects s m a).events = lcbsOf s.events ∧
    directCallsOf (PerMethodEffects s m a).events = directCallsOf s.events := by
  rcases methodCase_elim m with ⟨he, hm⟩|⟨he, hm⟩|⟨he, hm⟩|⟨he, hm⟩|⟨he, hm⟩|⟨he, hm⟩|⟨he, hm⟩|⟨he, hm⟩|⟨he, hm⟩|⟨he, hm⟩|⟨he, hm⟩|⟨he, hm⟩|⟨he, hm⟩|⟨he, hm⟩ <;>
    simp only [PerMethodEffects, he] <;>
    first
      | (obtain ⟨-, hsh, -, -, -, -, -, hdi, -, hdr, hlc, hdc, -⟩ := semaphoreAction_skel s a
         exact ⟨hsh, hdi, hdr, hlc, hdc⟩)
      | (split <;> refine ⟨?_, ?_, ?_, ?_, ?_⟩ <;>
          first
            | trivial
            | simp [drawsOf, lcbsOf, directCallsOf, List.filter_append, isDrawEvent,
                isLcbEvent, isDirectStateEvent])
      | (refine ⟨?_, ?_, ?_, ?_, ?_⟩ <;>
          first
            | trivial
            | simp [drawsOf, lcbsOf, directCallsOf, List.filter_append, isDrawEvent,
                isLcbEvent, isDirectStateEvent])

/-- Methods other than begin and the two draw-count methods leave the
deferred-draw record unchanged in the per-method switch. -/
theorem perMethodEffects_dd (s : EngineState) (m a : Nat) (n1 : m ≠ beginAddr)
    (n2 : m ≠ drawVertexArrayCountAddr) (n3 : m ≠ drawIndexBufferCountAddr) :
    (PerMethodEffects s m a).dd = s.dd := by
  rcases methodCase_elim m with ⟨he, hm⟩|⟨he, hm⟩|⟨he, hm⟩|⟨he, hm⟩|⟨he, hm⟩|⟨he, hm⟩|⟨he, hm⟩|⟨he, hm⟩|⟨he, hm⟩|⟨he, hm⟩|⟨he, hm⟩|⟨he, hm⟩|⟨he, hm⟩|⟨he, hm⟩ <;>
    simp only [PerMethodEffects, he] <;>
    first
      | trivial
      | exact (semaphoreAction_skel s a).2.2.2.2.1
      | exact absurd hm n1
      | exact absurd hm n2
      | exact absurd hm n3
      | (split <;> trivial)

/-- Methods that are not constant-buffer data methods leave the batch
record unchanged in the per-method switch. -/
theorem perMethodEffects_batch (s : EngineState) (m a : Nat) (n : ¬ isLcbDataAddr m) :
    (PerMethodEffects s m a).batchBuffer = s.batchBuffer ∧
    (PerMethodEffects s m a).batchStartOffset = s.batchStartOffset := by
  rcases methodCase_elim m with ⟨he, hm⟩|⟨he, hm⟩|⟨he, hm⟩|⟨he, hm⟩|⟨he, hm⟩|⟨he, hm⟩|⟨he, hm⟩|⟨he, hm⟩|⟨he, hm⟩|⟨he, hm⟩|⟨he, hm⟩|⟨he, hm⟩|⟨he, hm⟩|⟨he, hm⟩ <;>
    simp only [PerMethodEffects, he] <;>
    first
      | exact ⟨by trivial, by trivial⟩
      | exact ⟨(semaphoreAction_skel s a).2.2.1, (semaphoreAction_skel s a).2.2.2.1⟩
      | exact absurd hm n
      | (split <;> exact ⟨by trivial, by trivial⟩)
      | (refine ⟨?_, ?_⟩ <;> trivial)

/-- Methods other than the two macro-RAM load methods raise no error and
leave the macro memories unchanged in the per-method switch. -/
theorem perMethodEffects_mme (s : EngineState) (m a : Nat)
    (n1 : m ≠ mmeInstructionRamLoadAddr) (n2 : m ≠ mmeStartAddressRamLoadAddr) :
    (PerMethodEffects s m a).errors = s.errors ∧
    (PerMethodEffects s m a).mmeCode = s.mmeCode ∧
    (PerMethodEffects s m a).mmePositions = s.mmePositions := by
  rcases methodCase_elim m with ⟨he, hm⟩|⟨he, hm⟩|⟨he, hm⟩|⟨he, hm⟩|⟨he, hm⟩|⟨he, hm⟩|⟨he, hm⟩|⟨he, hm⟩|⟨he, hm⟩|⟨he, hm⟩|⟨he, hm⟩|⟨he, hm⟩|⟨he, hm⟩|⟨he, hm⟩ <;>
    simp only [PerMethodEffects, he] <;>
    first
      | exact ⟨by trivial, by trivial, by trivial⟩
      | exact ⟨(semaphoreAction_skel s a).2.2.2.2.2.2.2.2.1,
          (semaphoreAction_skel s a).2.2.2.2.2.1, (semaphoreAction_skel s a).2.2.2.2.2.2.1⟩
      | exact absurd hm n1
      | exact absurd hm n2
      | (split <;> exact ⟨by trivial, by trivial, by trivial⟩)
      | (refine ⟨?_, ?_, ?_⟩ <;> trivial)

/-!
Reductions of the classifier and of the per-method switch at specific
methods.
-/

theorem methodCase_at_begin : methodCase beginAddr = MethodCase.begin := by decide

theorem methodCase_at_dva :
    methodCase drawVertexArrayCountAddr = MethodCase.drawVertexArrayCount := by decide

theorem methodCase_at_dib :
    methodCase drawIndexBufferCountAddr = MethodCase.drawIndexBufferCount := by decide

theorem methodCase_at_instr :
    methodCase mmeInstructionRamLoadAddr = MethodCase.instrRamLoad := by decide

theorem methodCase_at_saLoad :
    methodCase mmeStartAddressRamLoadAddr = MethodCase.startAddressRamLoad := by decide

theorem methodCase_of_lcbData {m : Nat} (h : isLcbDataAddr m) :
    methodCase m = MethodCase.lcbData := by
  unfold isLcbDataAddr loadConstantBufferDataBase at h
  unfold methodCase
  rw [if_neg (by unfold mmeInstructionRamLoadAddr; omega),
      if_neg (by unfold mmeStartAddressRamLoadAddr; omega),
      if_neg (by unfold i2mLaunchDmaAddr; omega),
      if_neg (by unfold i2mLoadInlineDataAddr; omega),
      if_neg (by unfold syncpointActionAddr; omega),
      if_neg (by unfold clearSurfaceAddr; omega),
      if_neg (by unfold beginAddr; omega),
      if_neg (by unfold drawVertexArrayCountAddr; omega),
      if_neg (by unfold drawIndexBufferCountAddr; omega),
      if_neg (by unfold semaphoreInfoAddr; omega),
      if_neg (by unfold firmwareCallAddr4; omega),
      if_pos (by unfold isLcbDataAddr loadConstantBufferDataBase; omega)]

theorem perMethodEffects_at_lcbData (s : EngineState) (a : Nat) {m : Nat}
    (h : isLcbDataAddr m) :
    PerMethodEffects s m a =
      { s with batchStartOffset := s.regs loadConstantBufferOffsetAddr,
               batchBuffer := s.batchBuffer ++ [a],
               regs := upd s.regs loadConstantBufferOffsetAddr
                 ((s.regs loadConstantBufferOffsetAddr + 4) % 2 ^ 32) } := by
  simp only [PerMethodEffects, methodCase_of_lcbData h]

theorem perMethodEffects_at_dva (s : EngineState) (a : Nat) :
    PerMethodEffects s drawVertexArrayCountAddr a =
      { s with dd := DeferredDrawSet s.dd a (s.regs vertexArrayStartAddr) 0 (s.regs globalBaseInstanceIndexAddr) (GetCurrentTopology s) false } := by
  simp only [PerMethodEffects, methodCase_at_dva]

theorem perMethodEffects_at_dib (s : EngineState) (a : Nat) :
    PerMethodEffects s drawIndexBufferCountAddr a =
      { s with dd := DeferredDrawSet s.dd a (s.regs indexBufferFirstAddr) (s.regs globalBaseVertexIndexAddr) (s.regs globalBaseInstanceIndexAddr) (GetCurrentTopology s) true } := by
  simp only [PerMethodEffects, methodCase_at_dib]

theorem perMethodEffects_at_instr (s : EngineState) (a : Nat) :
    PerMethodEffects s mmeInstructionRamLoadAddr a =
      if s.regs mmeInstructionRamPointerAddr ≥ mmeCodeSize then
        { s with errors := s.errors ++ ["Macro memory is full!"] }
      else
        { s with mmeCode := upd s.mmeCode (s.regs mmeInstructionRamPointerAddr) a,
                 regs := upd s.regs mmeInstructionRamPointerAddr
                   ((s.regs mmeInstructionRamPointerAddr + 1) % mmeCodeSize) } := by
  simp only [PerMethodEffects, methodCase_at_instr]

theorem perMethodEffects_at_saLoad (s : EngineState) (a : Nat) :
    PerMethodEffects s mmeStartAddressRamLoadAddr a =
      if s.regs mmeStartAddressRamPointerAddr ≥ mmePositionsSize then
        { s with errors := s.errors ++ ["Maximum amount of macros reached!"] }
      else
        { s with mmePositions := upd s.mmePositions (s.regs mmeStartAddressRamPointerAddr) a,
                 regs := upd s.regs mmeStartAddressRamPointerAddr
                   ((s.regs mmeStartAddressRamPointerAddr + 1) % 2 ^ 32) } := by
  simp only [PerMethodEffects, methodCase_at_saLoad]

/-!
Reductions of HandleMethod per dispatcher layer.
-/

/-- Layer 1: a write to the shadow-RAM control register goes to both the
register file and the shadow copy and bypasses everything else. -/
theorem handleMethod_ctrl (s : EngineState) (a : Nat) :
    HandleMethod s shadowRamControlAddr a =
      { s with regs := upd s.regs shadowRamControlAddr a,
               shadow := upd s.shadow shadowRamControlAddr a } := by
  unfold HandleMethod
  rw [if_pos rfl]

/-- With shadow RAM in passthrough, no active batch and no pending draw, a
non-control write commits the argument and proceeds to dirty marking and
the per-method switch. -/
theorem handleMethod_normal (s : EngineState) {m : Nat} (a : Nat)
    (hm : m ≠ shadowRamControlAddr)
    (hpass : s.shadow shadowRamControlAddr = shadowModeMethodPassthrough)
    (hbatch : s.batchBuffer = []) (hpend : s.dd.pending = false) :
    HandleMethod s m a =
      Layer45 { s with regs := upd s.regs m a } m a (decide (s.regs m = a)) := by
  unfold HandleMethod shadowAdjust
  simp only [if_neg hm, hpass, shadowModeMethodPassthrough, shadowModeMethodTrack,
    shadowModeMethodTrackWithFilter, shadowModeMethodReplay, batchActive]
  norm_num
  rw [if_pos hbatch, if_neg (by rw [hpend]; exact Bool.false_ne_true)]

/-- Layer 2 append: while a batch is active, a constant-buffer data write
appends the word, advances the offset register by 4 and returns early. -/
theorem handleMethod_batch_append (s : EngineState) {m : Nat} (a : Nat)
    (hdata : isLcbDataAddr m)
    (hpass : s.shadow shadowRamControlAddr = shadowModeMethodPassthrough)
    (hbatch : s.batchBuffer ≠ []) :
    (HandleMethod s m a).batchBuffer = s.batchBuffer ++ [a] ∧
    (HandleMethod s m a).batchStartOffset = s.batchStartOffset ∧
    (HandleMethod s m a).regs loadConstantBufferOffsetAddr =
      (s.regs loadConstantBufferOffsetAddr + 4) % 2 ^ 32 ∧
    (HandleMethod s m a).shadow = s.shadow ∧
    (HandleMethod s m a).errors = s.errors ∧
    (HandleMethod s m a).events = s.events ∧
    (HandleMethod s m a).dd = s.dd := by
  have hm : m ≠ shadowRamControlAddr := by
    unfold isLcbDataAddr loadConstantBufferDataBase at hdata
    unfold shadowRamControlAddr
    omega
  unfold HandleMethod shadowAdjust
  simp only [if_neg hm, hpass, shadowModeMethodPassthrough, shadowModeMethodTrack,
    shadowModeMethodTrackWithFilter, shadowModeMethodReplay, batchActive]
  norm_num
  rw [if_neg hbatch, if_pos hdata]
  refine ⟨rfl, rfl, ?_, rfl, rfl, rfl, rfl⟩
  simp [upd, Ne.symm (lcbData_ne_offset hdata)]

/-- Layer 2 flush: while a batch is active, any other method first submits
the batch and then continues through the remaining layers. -/
theorem handleMethod_batch_other (s : EngineState) {m : Nat} (a : Nat)
    (hm : m ≠ shadowRamControlAddr)
    (hpass : s.shadow shadowRamControlAddr = shadowModeMethodPassthrough)
    (hbatch : s.batchBuffer ≠ []) (hnd : ¬ isLcbDataAddr m) :
    HandleMethod s m a =
      Layer45 (FlushBatch { s with regs := upd s.regs m a }) m a (decide (s.regs m = a)) := by
  unfold HandleMethod shadowAdjust
  simp only [if_neg hm, hpass, shadowModeMethodPassthrough, shadowModeMethodTrack,
    shadowModeMethodTrackWithFilter, shadowModeMethodReplay, batchActive]
  norm_num
  rw [if_neg hbatch, if_neg hnd]

/-- Layer 3 flush: while a draw is pending, a method unrelated to drawing
first flushes the deferred draw and then continues through the remaining
layers. -/
theorem handleMethod_pending_flush (s : EngineState) {m : Nat} (a : Nat)
    (hm : m ≠ shadowRamControlAddr)
    (hpass : s.shadow shadowRamControlAddr = shadowModeMethodPassthrough)
    (hbatch : s.batchBuffer = []) (hpend : s.dd.pending = true)
    (hnb : m ≠ beginAddr) (hne : m ≠ endAddr)
    (hnv : m ≠ drawVertexArrayCountAddr) (hni : m ≠ drawIndexBufferCountAddr) :
    HandleMethod s m a =
      Layer45 (FlushDeferredDraw { s with regs := upd s.regs m a }) m a
        (decide (s.regs m = a)) := by
  unfold HandleMethod shadowAdjust
  simp only [if_neg hm, hpass, shadowModeMethodPassthrough, shadowModeMethodTrack,
    shadowModeMethodTrackWithFilter, shadowModeMethodReplay, batchActive]
  norm_num
  rw [if_pos hbatch, if_pos hpend, if_neg hnb, if_neg hne, if_neg hnv, if_neg hni]

/-- Layer 3 coalescing: while a draw is pending, a begin write carrying the
Subsequent marker only increments the recorded instance count (possibly
logging a topology warning) and returns early. -/
theorem handleMethod_pending_begin_sub (s : EngineState) (a : Nat)
    (hpass : s.shadow shadowRamControlAddr = shadowModeMethodPassthrough)
    (hbatch : s.batchBuffer = []) (hpend : s.dd.pending = true)
    (hsub : beginInstanceId a = instanceIdSubsequent) :
    (HandleMethod s beginAddr a).dd =
      { s.dd with instanceCount := s.dd.instanceCount + 1 } ∧
    (HandleMethod s beginAddr a).batchBuffer = s.batchBuffer ∧
    (HandleMethod s beginAddr a).batchStartOffset = s.batchStartOffset ∧
    (HandleMethod s beginAddr a).shadow = s.shadow ∧
    (HandleMethod s beginAddr a).errors = s.errors ∧
    drawsOf (HandleMethod s beginAddr a).events = drawsOf s.events := by
  unfold HandleMethod shadowAdjust
  simp only [if_neg (show beginAddr ≠ shadowRamControlAddr by decide), hpass,
    shadowModeMethodPassthrough, shadowModeMethodTrack, shadowModeMethodTrackWithFilter,
    shadowModeMethodReplay, batchActive]
  norm_num
  rw [if_pos hbatch, if_pos hpend, if_pos hsub]
  split <;>
    refine ⟨rfl, rfl, rfl, rfl, rfl, ?_⟩ <;>
    simp [LogWarn, drawsOf, List.filter_append, isDrawEvent]

/-- Layer 3 repeats: while a draw is pending, a write to either draw-count
method is recognized as instanced-draw repetition: the value is committed
but the pending draw is not flushed, no error is raised, and a changed
count is reported at warning level only. -/
theorem handleMethod_pending_drawcount (s : EngineState) {m : Nat} (a : Nat)
    (hpass : s.shadow shadowRamControlAddr = shadowModeMethodPassthrough)
    (hbatch : s.batchBuffer = []) (hpend : s.dd.pending = true)
    (hm : m = drawVertexArrayCountAddr ∨ m = drawIndexBufferCountAddr) :
    (HandleMethod s m a).dd = s.dd ∧
    (HandleMethod s m a).errors = s.errors ∧
    (HandleMethod s m a).batchBuffer = s.batchBuffer ∧
    (HandleMethod s m a).shadow = s.shadow ∧
    (HandleMethod s m a).regs = upd s.regs m a ∧
    drawsOf (HandleMethod s m a).events = drawsOf s.events ∧
    (s.regs m = a → (HandleMethod s m a).events = s.events) ∧
    (s.regs m ≠ a → (HandleMethod s m a).events = s.events ++
      [Event.Warn (if m = drawVertexArrayCountAddr
        then "Vertex count changed partway through instanced draw!"
        else "Index count changed partway through instanced draw!")]) := by
  rcases hm with hm | hm <;> subst hm <;>
    (unfold HandleMethod shadowAdjust
     simp only [if_neg (show drawVertexArrayCountAddr ≠ shadowRamControlAddr by decide),
       if_neg (show drawIndexBufferCountAddr ≠ shadowRamControlAddr by decide), hpass,
       shadowModeMethodPassthrough, shadowModeMethodTrack, shadowModeMethodTrackWithFilter,
       shadowModeMethodReplay, batchActive]
     norm_num
     rw [if_pos hbatch, if_pos hpend]) <;>
    [rw [if_neg (show drawVertexArrayCountAddr ≠ beginAddr by decide),
         if_neg (show drawVertexArrayCountAddr ≠ endAddr by decide)];
     rw [if_neg (show drawIndexBufferCountAddr ≠ beginAddr by decide),
         if_neg (show drawIndexBufferCountAddr ≠ endAddr by decide),
         if_neg (show drawIndexBufferCountAddr ≠ drawVertexArrayCountAddr by decide)]] <;>
    by_cases hred : s.regs drawVertexArrayCountAddr = a <;>
    by_cases hred2 : s.regs drawIndexBufferCountAddr = a <;>
    simp_all [LogWarn, drawsOf, List.filter_append, isDrawEvent,
      (show drawIndexBufferCountAddr ≠ drawVertexArrayCountAddr from by decide)]

/-!
Composite lemmas across the layers.
-/

theorem flushBatch_frame (s : EngineState) :
    (FlushBatch s).regs = s.regs ∧ (FlushBatch s).shadow = s.shadow ∧
    (FlushBatch s).dd = s.dd ∧ (FlushBatch s).dirty = s.dirty ∧
    (FlushBatch s).errors = s.errors ∧ (FlushBatch s).mmeCode = s.mmeCode ∧
    (FlushBatch s).mmePositions = s.mmePositions ∧
    (FlushBatch s).batchBuffer = [] ∧
    drawsOf (FlushBatch s).events = drawsOf s.events ∧
    directCallsOf (FlushBatch s).events = directCallsOf s.events ∧
    lcbsOf (FlushBatch s).events =
      lcbsOf s.events ++ [Event.LoadConstantBuffer s.batchBuffer s.batchStartOffset] := by
  unfold FlushBatch
  refine ⟨rfl, rfl, rfl, rfl, rfl, rfl, rfl, rfl, ?_, ?_, ?_⟩ <;>
    simp [drawsOf, directCallsOf, lcbsOf, List.filter_append, isDrawEvent,
      isDirectStateEvent, isLcbEvent]

theorem flushDeferredDraw_regs (s : EngineState) :
    (FlushDeferredDraw s).regs = s.regs := by
  unfold FlushDeferredDraw; split <;> rfl

theorem flushDeferredDraw_frame (s : EngineState) :
    (FlushDeferredDraw s).regs = s.regs ∧ (FlushDeferredDraw s).shadow = s.shadow ∧
    (FlushDeferredDraw s).batchBuffer = s.batchBuffer ∧
    (FlushDeferredDraw s).batchStartOffset = s.batchStartOffset ∧
    (FlushDeferredDraw s).dirty = s.dirty ∧ (FlushDeferredDraw s).errors = s.errors ∧
    (FlushDeferredDraw s).mmeCode = s.mmeCode ∧
    (FlushDeferredDraw s).mmePositions = s.mmePositions ∧
    lcbsOf (FlushDeferredDraw s).events = lcbsOf s.events ∧
    directCallsOf (FlushDeferredDraw s).events = directCallsOf s.events := by
  unfold FlushDeferredDraw
  split <;>
    (refine ⟨rfl, rfl, rfl, rfl, rfl, rfl, rfl, rfl, ?_, ?_⟩ <;>
      simp [lcbsOf, directCallsOf, List.filter_append, isLcbEvent, isDirectStateEvent,
        mkDrawEvent])

theorem flushDeferredDraw_pending (s : EngineState) (h : s.dd.pending = true) :
    FlushDeferredDraw s =
      { s with events := s.events ++ [mkDrawEvent s.dd],
               dd := { s.dd with pending := false, instanceCount := 1 } } := by
  unfold FlushDeferredDraw; rw [if_pos h]

theorem flushDeferredDraw_idle (s : EngineState) (h : s.dd.pending = false) :
    FlushDeferredDraw s = s := by
  unfold FlushDeferredDraw
  rw [if_neg (by rw [h]; exact Bool.false_ne_true)]

theorem layer45_regs_self (s : EngineState) (m a : Nat) (r : Bool) :
    (Layer45 s m a r).regs m = s.regs m := by
  unfold Layer45
  rw [perMethodEffects_regs_self, (dirtyAndDirect_frame s m a r).1]

theorem layer45_draws (s : EngineState) (m a : Nat) (r : Bool) :
    drawsOf (Layer45 s m a r).events = drawsOf s.events := by
  unfold Layer45
  rw [(perMethodEffects_frame _ m a).2.2.1, (dirtyAndDirect_frame s m a r).2.2.2.2.2.2.2.2.1]

theorem layer45_lcbs (s : EngineState) (m a : Nat) (r : Bool) :
    lcbsOf (Layer45 s m a r).events = lcbsOf s.events := by
  unfold Layer45
  rw [(perMethodEffects_frame _ m a).2.2.2.1,
    (dirtyAndDirect_frame s m a r).2.2.2.2.2.2.2.2.2.1]

theorem layer45_shadow (s : EngineState) (m a : Nat) (r : Bool) :
    (Layer45 s m a r).shadow = s.shadow := by
  unfold Layer45
  rw [(perMethodEffects_frame _ m a).1, (dirtyAndDirect_frame s m a r).2.1]

theorem layer45_dd (s : EngineState) (m a : Nat) (r : Bool) (n1 : m ≠ beginAddr)
    (n2 : m ≠ drawVertexArrayCountAddr) (n3 : m ≠ drawIndexBufferCountAddr) :
    (Layer45 s m a r).dd = s.dd := by
  unfold Layer45
  rw [perMethodEffects_dd _ m a n1 n2 n3, (dirtyAndDirect_frame s m a r).2.2.2.2.1]

theorem layer45_batch (s : EngineState) (m a : Nat) (r : Bool) (n : ¬ isLcbDataAddr m) :
    (Layer45 s m a r).batchBuffer = s.batchBuffer ∧
    (Layer45 s m a r).batchStartOffset = s.batchStartOffset := by
  unfold Layer45
  obtain ⟨h1, h2⟩ := perMethodEffects_batch (DirtyAndDirect s m a r) m a n
  obtain ⟨-, -, h3, h4, -⟩ := dirtyAndDirect_frame s m a r
  exact ⟨h1.trans h3, h2.trans h4⟩

theorem layer45_mme (s : EngineState) (m a : Nat) (r : Bool)
    (n1 : m ≠ mmeInstructionRamLoadAddr) (n2 : m ≠ mmeStartAddressRamLoadAddr) :
    (Layer45 s m a r).errors = s.errors ∧
    (Layer45 s m a r).mmeCode = s.mmeCode ∧
    (Layer45 s m a r).mmePositions = s.mmePositions := by
  unfold Layer45
  obtain ⟨h1, h2, h3⟩ := perMethodEffects_mme (DirtyAndDirect s m a r) m a n1 n2
  obtain ⟨-, -, -, -, -, h4, h5, h6, -⟩ := dirtyAndDirect_frame s m a r
  exact ⟨h1.trans h6, h2.trans h4, h3.trans h5⟩

theorem layer45_redundant_frame (s : EngineState) (m a : Nat) :
    (Layer45 s m a true).dirty = s.dirty ∧
    directCallsOf (Layer45 s m a true).events = directCallsOf s.events := by
  unfold Layer45
  rw [dirtyAndDirect_redundant]
  exact ⟨(perMethodEffects_frame s m a).2.1, (perMethodEffects_frame s m a).2.2.2.2⟩

theorem shadowAdjust_pass (s : EngineState) (m a : Nat)
    (hpass : s.shadow shadowRamControlAddr = shadowModeMethodPassthrough) :
    shadowAdjust s m a = (s, a) := by
  unfold shadowAdjust
  rw [hpass]
  norm_num [shadowModeMethodPassthrough, shadowModeMethodTrack,
    shadowModeMethodTrackWithFilter, shadowModeMethodReplay]

theorem shadowAdjust_replay (s : EngineState) (m a : Nat)
    (hmode : s.shadow shadowRamControlAddr = shadowModeMethodReplay) :
    shadowAdjust s m a = (s, s.shadow m) := by
  unfold shadowAdjust
  rw [hmode]
  norm_num [shadowModeMethodReplay, shadowModeMethodTrack, shadowModeMethodTrackWithFilter]

/-- For every method other than the shadow-RAM control register, the value
HandleMethod leaves in the register file at that method address is
exactly the shadow-adjusted (effective) argument: the commit is never
undone by a later layer. -/
theorem handleMethod_regs_self (s : EngineState) {m : Nat} (a : Nat)
    (hm : m ≠ shadowRamControlAddr) :
    (HandleMethod s m a).regs m = (shadowAdjust s m a).2 := by
  rcases hsa : shadowAdjust s m a with ⟨s0, a2⟩
  unfold HandleMethod
  rw [if_neg hm, hsa]
  simp only []
  split
  next hb =>
    split
    next hdata =>
      exact (upd_other _ _ _ _ (lcbData_ne_offset hdata)).trans (upd_self _ _ _)
    next hdata =>
      exact (layer45_regs_self _ _ _ _).trans
        (((congrFun (flushBatch_frame _).1 m)).trans (upd_self _ _ _))
  next hb =>
    split
    next hp =>
      split
      next hbeg =>
        split
        next hsub => split <;> exact upd_self _ _ _
        next hsub =>
          exact (layer45_regs_self _ _ _ _).trans
            ((congrFun (flushDeferredDraw_regs _) m).trans (upd_self _ _ _))
      next hbeg =>
        split
        next hend => exact upd_self _ _ _
        next hend =>
          split
          next hdva => split <;> exact upd_self _ _ _
          next hdva =>
            split
            next hdib => split <;> exact upd_self _ _ _
            next hdib =>
              exact (layer45_regs_self _ _ _ _).trans
                ((congrFun (flushDeferredDraw_regs _) m).trans (upd_self _ _ _))
    next hp =>
      exact (layer45_regs_self _ _ _ _).trans (upd_self _ _ _)

/-- A redundant write (the stored value already equals the incoming
argument, shadow RAM in passthrough) marks nothing dirty and produces no
direct-state fast-path call, whichever dispatcher layer handles it. -/
theorem handleMethod_redundant_frame (s : EngineState) {m : Nat} (a : Nat)
    (hm : m ≠ shadowRamControlAddr)
    (hpass : s.shadow shadowRamControlAddr = shadowModeMethodPassthrough)
    (hred : s.regs m = a) :
    (HandleMethod s m a).dirty = s.dirty ∧
    directCallsOf (HandleMethod s m a).events = directCallsOf s.events := by
  have hd : (decide (s.regs m = a) : Bool) = true := decide_eq_true hred
  unfold HandleMethod
  rw [if_neg hm, shadowAdjust_pass s m a hpass]
  simp only []
  rw [hd]
  split
  next hb =>
    split
    next hdata => exact ⟨rfl, rfl⟩
    next hdata =>
      exact ⟨((layer45_redundant_frame _ m a).1).trans (flushBatch_frame _).2.2.2.1,
        ((layer45_redundant_frame _ m a).2).trans (flushBatch_frame _).2.2.2.2.2.2.2.2.2.1⟩
  next hb =>
    split
    next hp =>
      split
      next hbeg =>
        split
        next hsub =>
          split <;>
            exact ⟨rfl, by simp [LogWarn, directCallsOf, List.filter_append,
              isDirectStateEvent]⟩
        next hsub =>
          exact ⟨((layer45_redundant_frame _ m a).1).trans (flushDeferredDraw_frame _).2.2.2.2.1,
            ((layer45_redundant_frame _ m a).2).trans
              (flushDeferredDraw_frame _).2.2.2.2.2.2.2.2.2⟩
      next hbeg =>
        split
        next hend => exact ⟨rfl, rfl⟩
        next hend =>
          split
          next hdva =>
            split
            next => exact ⟨rfl, rfl⟩
            next hcontra => exact absurd rfl hcontra
          next hdva =>
            split
            next hdib =>
              split
              next => exact ⟨rfl, rfl⟩
              next hcontra => exact absurd rfl hcontra
            next hdib =>
              exact ⟨((layer45_redundant_frame _ m a).1).trans
                  (flushDeferredDraw_frame _).2.2.2.2.1,
                ((layer45_redundant_frame _ m a).2).trans
                  (flushDeferredDraw_frame _).2.2.2.2.2.2.2.2.2⟩
    next hp =>
      exact ⟨(layer45_redundant_frame _ m a).1, (layer45_redundant_frame _ m a).2⟩

/-!
Claim theorems.
-/

/-- Claim C1 (code evaluation): contrary to the claim, the polygon-mode and
cull-mode conversion switches lack break statements, so every case falls
through to the throwing default: SetPolygonMode raises the
unsupported-configuration error for every input, valid ones included
(storing the Point conversion on the way through), and SetCullMode with
culling enabled does the same; only the culling-disabled path is
error-free. -/
theorem c1_conversion_switch_always_raises :
    (∀ st mode, (SetPolygonMode st mode).2.isSome = true) ∧
    (∀ st mode, (SetCullMode st true mode).2.isSome = true) ∧
    (SetPolygonMode 0 pmFill).2 = some "Invalid polygon mode" ∧
    (SetPolygonMode 0 pmFill).1 = vkPolygonModePoint ∧
    (SetCullMode 0 true cfFront).2 = some "Invalid cull mode" ∧
    SetCullMode 7 false cfFront = (0, none) := by
  refine ⟨?_, ?_, rfl, rfl, rfl, rfl⟩
  · intro st mode
    unfold SetPolygonMode
    split_ifs <;> rfl
  · intro st mode
    unfold SetCullMode
    split_ifs <;> simp_all

/-- Claim C6: after DepthStencilState::Flush, the packed back-face stencil
ops equal the conversion of the front-face stencilOps registers,
regardless of twoSidedStencilTestEnable and of the stencilBack registers:
the back-face selection is computed into a dead local and discarded. -/
theorem c6_back_face_stencil_discarded (e : DepthStencilRegisters) :
    (∀ b ops, DepthStencilStateFlush { e with twoSidedStencilTestEnable := b, stencilBack := ops } =
      DepthStencilStateFlush e) ∧
    (∀ p, DepthStencilStateFlush e = Except.ok p →
      p.stencilBack = p.stencilFront ∧ PackStencilOps e.stencilOps = Except.ok p.stencilBack) := by
  constructor
  · intro b ops
    rfl
  · intro p hp
    rcases hdf : ConvertCompareFunc e.depthFunc with err | df <;>
      rcases hps : PackStencilOps e.stencilOps with err2 | fp <;>
      simp_all [DepthStencilStateFlush, Except.bind, bind] <;>
      simp [← hp]

/-- Witness for C6 at a concrete register state. -/
theorem c6_back_face_stencil_discarded_witness :
    DepthStencilStateFlush dsRegs0 = Except.ok dsPacked0 ∧
    (dsPacked0.stencilBack = dsPacked0.stencilFront ∧
      PackStencilOps dsRegs0.stencilOps = Except.ok dsPacked0.stencilBack) :=
  ⟨rfl, (c6_back_face_stencil_discarded dsRegs0).2 dsPacked0 rfl⟩

/-- Claim C9: a Disabled colour-target format register makes the colour
render-target translator store the disabled sentinel in the packed state
and yield a null view with no error and no view request; a zero
ztSelect.targetCount makes the depth render-target translator yield a
null view likewise. -/
theorem c9_disabled_targets_yield_null_views :
    (∀ t : ColorTargetRegisters, t.format = ctfDisabled →
      ColorRenderTargetStateFlush t = Except.ok (ctfDisabled % 2 ^ 8, none)) ∧
    (∀ e : DepthTargetRegisters, e.ztTargetCount = 0 →
      DepthRenderTargetStateFlush e = Except.ok ((e.ztFormat + 2 ^ 8 - ztfZF32) % 2 ^ 8, none)) := by
  constructor
  · intro t h
    simp [ColorRenderTargetStateFlush, h]
  · intro e h
    simp [DepthRenderTargetStateFlush, h]

/-- Witness for C9 at concrete register states. -/
theorem c9_disabled_targets_yield_null_views_witness :
    (ctr0.format = ctfDisabled ∧
      ColorRenderTargetStateFlush ctr0 = Except.ok (ctfDisabled % 2 ^ 8, none)) ∧
    (dtr0.ztTargetCount = 0 ∧
      DepthRenderTargetStateFlush dtr0 =
        Except.ok ((dtr0.ztFormat + 2 ^ 8 - ztfZF32) % 2 ^ 8, none)) :=
  ⟨⟨rfl, (c9_disabled_targets_yield_null_views).1 ctr0 rfl⟩,
   ⟨rfl, (c9_disabled_targets_yield_null_views).2 dtr0 rfl⟩⟩

/-- Claim C10: the depth-bounds register bundle assembled by
MakeActiveStateRegisters takes both of its fields from depthBoundsMin, so
the active state derived from the bundle never observes depthBoundsMax:
two register states differing only there produce identical bundles. -/
theorem c10_depth_bounds_ignores_max :
    (∀ r : MaxwellRegisters,
      (MakeActiveStateRegisters r).depthBoundsRegisters = (r.depthBoundsMin, r.depthBoundsMin)) ∧
    (∀ (r : MaxwellRegisters) (v : Nat),
      MakeActiveStateRegisters { r with depthBoundsMax := v } = MakeActiveStateRegisters r) :=
  ⟨fun _ => rfl, fun _ _ => rfl⟩

/-- Every write to a method that is neither the shadow-RAM control register
nor a batch data method nor one of the draw-related methods reaches
layers 4/5, with the earlier layers only flushing pending work: the
intermediate state has the argument committed and macro state, errors and
the traces of interest undisturbed. -/
theorem handleMethod_to_layer45 (s : EngineState) (m a : Nat)
    (hm : m ≠ shadowRamControlAddr)
    (hpass : s.shadow shadowRamControlAddr = shadowModeMethodPassthrough)
    (hnd : ¬ isLcbDataAddr m) (hnb : m ≠ beginAddr) (hne : m ≠ endAddr)
    (hnv : m ≠ drawVertexArrayCountAddr) (hni : m ≠ drawIndexBufferCountAddr) :
    ∃ t, HandleMethod s m a = Layer45 t m a (decide (s.regs m = a)) ∧
      t.regs = upd s.regs m a ∧ t.errors = s.errors ∧
      t.mmeCode = s.mmeCode ∧ t.mmePositions = s.mmePositions := by
  by_cases hb : s.batchBuffer = []
  · by_cases hp : s.dd.pending = true
    · refine ⟨FlushDeferredDraw { s with regs := upd s.regs m a },
        handleMethod_pending_flush s a hm hpass hb hp hnb hne hnv hni, ?_, ?_, ?_, ?_⟩
      · exact flushDeferredDraw_regs _
      · exact (flushDeferredDraw_frame _).2.2.2.2.2.1
      · exact (flushDeferredDraw_frame _).2.2.2.2.2.2.1
      · exact (flushDeferredDraw_frame _).2.2.2.2.2.2.2.1
    · have hp2 : s.dd.pending = false := by revert hp; cases s.dd.pending <;> simp
      exact ⟨{ s with regs := upd s.regs m a },
        handleMethod_normal s a hm hpass hb hp2, rfl, rfl, rfl, rfl⟩
  · refine ⟨FlushBatch { s with regs := upd s.regs m a },
      handleMethod_batch_other s a hm hpass hb hnd, ?_, ?_, ?_, ?_⟩
    · exact (flushBatch_frame _).1
    · exact (flushBatch_frame _).2.2.2.2.1
    · exact (flushBatch_frame _).2.2.2.2.2.1
    · exact (flushBatch_frame _).2.2.2.2.2.2.1

/-- The instruction-RAM load case through layers 4/5: error exactly when
the pointer register is at or beyond capacity; otherwise store at the
pointer and advance it with wraparound. -/
theorem layer45_at_instr (t : EngineState) (a : Nat) (r : Bool) :
    (Layer45 t mmeInstructionRamLoadAddr a r).errors =
      t.errors ++ (if t.regs mmeInstructionRamPointerAddr ≥ mmeCodeSize
        then ["Macro memory is full!"] else []) ∧
    (Layer45 t mmeInstructionRamLoadAddr a r).mmeCode =
      (if t.regs mmeInstructionRamPointerAddr ≥ mmeCodeSize then t.mmeCode
       else upd t.mmeCode (t.regs mmeInstructionRamPointerAddr) a) ∧
    (Layer45 t mmeInstructionRamLoadAddr a r).regs mmeInstructionRamPointerAddr =
      (if t.regs mmeInstructionRamPointerAddr ≥ mmeCodeSize
       then t.regs mmeInstructionRamPointerAddr
       else (t.regs mmeInstructionRamPointerAddr + 1) % mmeCodeSize) := by
  obtain ⟨hregs, -, -, -, -, hmc, -, herr, -, -, -⟩ :=
    dirtyAndDirect_frame t mmeInstructionRamLoadAddr a r
  unfold Layer45
  rw [perMethodEffects_at_instr, hregs]
  split <;> simp_all [upd_self]

/-- The macro start-address load case through layers 4/5: error exactly
when the pointer register is at or beyond the position-table capacity;
otherwise store at the pointer and advance it. -/
theorem layer45_at_saLoad (t : EngineState) (a : Nat) (r : Bool) :
    (Layer45 t mmeStartAddressRamLoadAddr a r).errors =
      t.errors ++ (if t.regs mmeStartAddressRamPointerAddr ≥ mmePositionsSize
        then ["Maximum amount of macros reached!"] else []) ∧
    (Layer45 t mmeStartAddressRamLoadAddr a r).mmePositions =
      (if t.regs mmeStartAddressRamPointerAddr ≥ mmePositionsSize then t.mmePositions
       else upd t.mmePositions (t.regs mmeStartAddressRamPointerAddr) a) ∧
    (Layer45 t mmeStartAddressRamLoadAddr a r).regs mmeStartAddressRamPointerAddr =
      (if t.regs mmeStartAddressRamPointerAddr ≥ mmePositionsSize
       then t.regs mmeStartAddressRamPointerAddr
       else (t.regs mmeStartAddressRamPointerAddr + 1) % 2 ^ 32) := by
  obtain ⟨hregs, -, -, -, -, -, hmp, herr, -, -, -⟩ :=
    dirtyAndDirect_frame t mmeStartAddressRamLoadAddr a r
  unfold Layer45
  rw [perMethodEffects_at_saLoad, hregs]
  split <;> simp_all [upd_self]

/-- Claim C4: in replay mode, the value committed to the register file for
any method other than the shadow-RAM control register equals the value
previously recorded in the shadow copy at that address, regardless of the
incoming argument; writes to the control register itself go directly to
both the register file and the shadow copy in every mode. -/
theorem c4_shadow_replay_overrides (s : EngineState) (m a : Nat)
    (hm : m ≠ shadowRamControlAddr)
    (hmode : s.shadow shadowRamControlAddr = shadowModeMethodReplay) :
    (HandleMethod s m a).regs m = s.shadow m ∧
    (∀ b, (HandleMethod s shadowRamControlAddr b).regs shadowRamControlAddr = b ∧
          (HandleMethod s shadowRamControlAddr b).shadow shadowRamControlAddr = b) := by
  constructor
  · rw [handleMethod_regs_self s a hm, shadowAdjust_replay s m a hmode]
  · intro b
    rw [handleMethod_ctrl]
    exact ⟨upd_self s.regs shadowRamControlAddr b, upd_self s.shadow shadowRamControlAddr b⟩

/-- Witness for C4: in replay mode the recorded shadow value 77 is
committed in place of the incoming argument 99. -/
theorem c4_shadow_replay_overrides_witness :
    (5 : Nat) ≠ shadowRamControlAddr ∧
    replayState.shadow shadowRamControlAddr = shadowModeMethodReplay ∧
    replayState.shadow 5 = 77 ∧
    ((HandleMethod replayState 5 99).regs 5 = replayState.shadow 5 ∧
     (∀ b, (HandleMethod replayState shadowRamControlAddr b).regs shadowRamControlAddr = b ∧
           (HandleMethod replayState shadowRamControlAddr b).shadow shadowRamControlAddr = b)) :=
  ⟨by decide, rfl, rfl, c4_shadow_replay_overrides replayState 5 99 (by decide) rfl⟩

/-- Claim C5 (counterexample to the claim as stated): a clear-surface write
repeated with the same value re-runs the unconditional per-method switch,
so the second, redundant write produces a duplicate downstream Clear
call. -/
theorem c5_redundant_write_counterexample :
    clearsOf (HandleMethod initState clearSurfaceAddr 5).events = [Event.Clear 5] ∧
    clearsOf (HandleMethod (HandleMethod initState clearSurfaceAddr 5) clearSurfaceAddr 5).events =
      [Event.Clear 5, Event.Clear 5] ∧
    (HandleMethod initState clearSurfaceAddr 5).regs clearSurfaceAddr = 5 := by
  refine ⟨?_, ?_, ?_⟩ <;> rfl

/-- Claim C5 (amended): a write whose value equals the currently stored
register value marks no dirty handle and produces no duplicate
change-triggered (direct-state) side-effect call, while the value is
still committed; unconditional per-method side effects are outside this
guarantee. -/
theorem c5_redundant_write_amended (s : EngineState) (m a : Nat)
    (hpass : s.shadow shadowRamControlAddr = shadowModeMethodPassthrough)
    (hstored : s.regs m = a) :
    (HandleMethod s m a).dirty = s.dirty ∧
    directCallsOf (HandleMethod s m a).events = directCallsOf s.events ∧
    (HandleMethod s m a).regs m = a := by
  by_cases hm : m = shadowRamControlAddr
  · subst hm
    rw [handleMethod_ctrl]
    exact ⟨rfl, rfl, upd_self s.regs shadowRamControlAddr a⟩
  · obtain ⟨h1, h2⟩ := handleMethod_redundant_frame s a hm hpass hstored
    refine ⟨h1, h2, ?_⟩
    rw [handleMethod_regs_self s a hm, shadowAdjust_pass s m a hpass]

/-- Witness for the amended C5 at a concrete redundant write. -/
theorem c5_redundant_write_amended_witness :
    initState.shadow shadowRamControlAddr = shadowModeMethodPassthrough ∧
    initState.regs clearSurfaceAddr = 0 ∧
    ((HandleMethod initState clearSurfaceAddr 0).dirty = initState.dirty ∧
     directCallsOf (HandleMethod initState clearSurfaceAddr 0).events =
       directCallsOf initState.events ∧
     (HandleMethod initState clearSurfaceAddr 0).regs clearSurfaceAddr = 0) :=
  ⟨rfl, rfl, c5_redundant_write_amended initState clearSurfaceAddr 0 rfl rfl⟩

/-- Claim C8: a microcode instruction-RAM load errors exactly when the
instruction RAM pointer is at or beyond the microcode capacity (macro
memory and pointer untouched on the error path); on success the word is
stored at the pointer and the pointer advances with wraparound, landing
strictly below capacity.  A macro start-address load errors exactly when
its pointer is at or beyond the position-table capacity; on success it
stores and increments without wraparound. -/
theorem c8_macro_ram_load_capacity (s : EngineState) (a : Nat)
    (hpass : s.shadow shadowRamControlAddr = shadowModeMethodPassthrough) :
    ((HandleMethod s mmeInstructionRamLoadAddr a).errors =
       s.errors ++ (if s.regs mmeInstructionRamPointerAddr ≥ mmeCodeSize
         then ["Macro memory is full!"] else []) ∧
     (HandleMethod s mmeInstructionRamLoadAddr a).mmeCode =
       (if s.regs mmeInstructionRamPointerAddr ≥ mmeCodeSize then s.mmeCode
        else upd s.mmeCode (s.regs mmeInstructionRamPointerAddr) a) ∧
     (HandleMethod s mmeInstructionRamLoadAddr a).regs mmeInstructionRamPointerAddr =
       (if s.regs mmeInstructionRamPointerAddr ≥ mmeCodeSize
        then s.regs mmeInstructionRamPointerAddr
        else (s.regs mmeInstructionRamPointerAddr + 1) % mmeCodeSize) ∧
     (s.regs mmeInstructionRamPointerAddr + 1) % mmeCodeSize < mmeCodeSize) ∧
    ((HandleMethod s mmeStartAddressRamLoadAddr a).errors =
       s.errors ++ (if s.regs mmeStartAddressRamPointerAddr ≥ mmePositionsSize
         then ["Maximum amount of macros reached!"] else []) ∧
     (HandleMethod s mmeStartAddressRamLoadAddr a).mmePositions =
       (if s.regs mmeStartAddressRamPointerAddr ≥ mmePositionsSize then s.mmePositions
        else upd s.mmePositions (s.regs mmeStartAddressRamPointerAddr) a) ∧
     (s.regs mmeStartAddressRamPointerAddr < mmePositionsSize →
       (HandleMethod s mmeStartAddressRamLoadAddr a).regs mmeStartAddressRamPointerAddr =
         s.regs mmeStartAddressRamPointerAddr + 1) ∧
     (s.regs mmeStartAddressRamPointerAddr ≥ mmePositionsSize →
       (HandleMethod s mmeStartAddressRamLoadAddr a).regs mmeStartAddressRamPointerAddr =
         s.regs mmeStartAddressRamPointerAddr)) := by
  constructor
  · obtain ⟨t, heq, hregs, herr, hmc, hmp⟩ := handleMethod_to_layer45 s
      mmeInstructionRamLoadAddr a (by decide) hpass (by decide) (by decide) (by decide)
      (by decide) (by decide)
    obtain ⟨e1, e2, e3⟩ := layer45_at_instr t a (decide (s.regs mmeInstructionRamLoadAddr = a))
    have hptr : t.regs mmeInstructionRamPointerAddr = s.regs mmeInstructionRamPointerAddr := by
      rw [hregs]
      exact upd_other s.regs mmeInstructionRamLoadAddr a mmeInstructionRamPointerAddr (by decide)
    rw [heq, e1, e2, e3, hptr, herr, hmc]
    exact ⟨rfl, rfl, rfl, Nat.mod_lt _ (by decide)⟩
  · obtain ⟨t, heq, hregs, herr, hmc, hmp⟩ := handleMethod_to_layer45 s
      mmeStartAddressRamLoadAddr a (by decide) hpass (by decide) (by decide) (by decide)
      (by decide) (by decide)
    obtain ⟨e1, e2, e3⟩ := layer45_at_saLoad t a (decide (s.regs mmeStartAddressRamLoadAddr = a))
    have hptr : t.regs mmeStartAddressRamPointerAddr = s.regs mmeStartAddressRamPointerAddr := by
      rw [hregs]
      exact upd_other s.regs mmeStartAddressRamLoadAddr a mmeStartAddressRamPointerAddr
        (by decide)
    rw [heq, e1, e2, e3, hptr, herr, hmp]
    refine ⟨rfl, rfl, ?_, ?_⟩
    · intro hlt
      rw [if_neg (not_le.mpr hlt)]
      have hcap : s.regs mmeStartAddressRamPointerAddr < mmePositionsSize := hlt
      unfold mmePositionsSize at hcap
      exact Nat.mod_eq_of_lt (by omega)
    · intro hge
      rw [if_pos hge]

/-- Witness for C8 at the quiescent state (pointers at zero, below both
capacities). -/
theorem c8_macro_ram_load_capacity_witness :
    initState.shadow shadowRamControlAddr = shadowModeMethodPassthrough ∧
    (HandleMethod initState mmeInstructionRamLoadAddr 42).errors = [] ∧
    (HandleMethod initState mmeInstructionRamLoadAddr 42).mmeCode =
      upd initState.mmeCode 0 42 ∧
    (HandleMethod initState mmeStartAddressRamLoadAddr 7).regs
      mmeStartAddressRamPointerAddr = 1 := by
  refine ⟨rfl, ?_, ?_, ?_⟩
  · have h := ((c8_macro_ram_load_capacity initState 42 rfl).1).1
    simpa using h
  · have h := ((c8_macro_ram_load_capacity initState 42 rfl).1).2.1
    simpa using h
  · have h := ((c8_macro_ram_load_capacity initState 7 rfl).2).2.2.1 (by decide)
    simpa using h

/-- Claim C7: while a draw is pending, a repeat of either draw-count method
with the same value neither flushes the pending draw nor emits anything;
a changed count is reported at warning level only, never as an error, and
the deferred-draw record keeps its originally recorded values, which are
exactly what the eventually emitted Draw call uses. -/
theorem c7_pending_drawcount_repeat (s : EngineState) (m v u w : Nat)
    (hpass : s.shadow shadowRamControlAddr = shadowModeMethodPassthrough)
    (hbatch : s.batchBuffer = []) (hpend : s.dd.pending = true)
    (hm : m = drawVertexArrayCountAddr ∨ m = drawIndexBufferCountAddr)
    (hu1 : u ≠ shadowRamControlAddr) (hu2 : u ≠ beginAddr) (hu3 : u ≠ endAddr)
    (hu4 : u ≠ drawVertexArrayCountAddr) (hu5 : u ≠ drawIndexBufferCountAddr) :
    (HandleMethod s m v).dd = s.dd ∧
    (HandleMethod s m v).errors = s.errors ∧
    drawsOf (HandleMethod s m v).events = drawsOf s.events ∧
    (s.regs m = v → (HandleMethod s m v).events = s.events) ∧
    (s.regs m ≠ v → (HandleMethod s m v).events = s.events ++
      [Event.Warn (if m = drawVertexArrayCountAddr
        then "Vertex count changed partway through instanced draw!"
        else "Index count changed partway through instanced draw!")]) ∧
    drawsOf (HandleMethod (HandleMethod s m v) u w).events =
      drawsOf s.events ++ [mkDrawEvent s.dd] := by
  obtain ⟨hdd, herr, hbb, hsh, hregs, hdraws, hredev, hwarnev⟩ :=
    handleMethod_pending_drawcount s v hpass hbatch hpend hm
  refine ⟨hdd, herr, hdraws, hredev, hwarnev, ?_⟩
  have hpass1 : (HandleMethod s m v).shadow shadowRamControlAddr =
      shadowModeMethodPassthrough := by rw [hsh]; exact hpass
  have hbatch1 : (HandleMethod s m v).batchBuffer = [] := by rw [hbb]; exact hbatch
  have hpend1 : (HandleMethod s m v).dd.pending = true := by rw [hdd]; exact hpend
  rw [handleMethod_pending_flush (HandleMethod s m v) w hu1 hpass1 hbatch1 hpend1
    hu2 hu3 hu4 hu5]
  rw [layer45_draws]
  rw [flushDeferredDraw_pending
    { HandleMethod s m v with regs := upd (HandleMethod s m v).regs u w } hpend1]
  simp only [drawsOf_append]
  rw [hdraws, hdd]
  simp [drawsOf, isDrawEvent, mkDrawEvent]

/-- Witness for C7: in a concrete pending state the repeat write keeps the
record intact and the eventual Draw carries the originally recorded
parameters {topology 3, count 5, first 2, instances 4, baseVertex 1,
baseInstance 6}. -/
theorem c7_pending_drawcount_repeat_witness :
    pendingState.dd.pending = true ∧
    (HandleMethod pendingState drawVertexArrayCountAddr 0).dd = pendingState.dd ∧
    drawsOf (HandleMethod (HandleMethod pendingState drawVertexArrayCountAddr 0) 0x111 1).events =
      drawsOf pendingState.events ++ [mkDrawEvent pendingState.dd] :=
  ⟨rfl,
   (c7_pending_drawcount_repeat pendingState drawVertexArrayCountAddr 0 0x111 1 rfl rfl rfl
     (Or.inl rfl) (by decide) (by decide) (by decide) (by decide) (by decide)).1,
   (c7_pending_drawcount_repeat pendingState drawVertexArrayCountAddr 0 0x111 1 rfl rfl rfl
     (Or.inl rfl) (by decide) (by decide) (by decide) (by decide) (by decide)).2.2.2.2.2⟩

theorem run_append (l1 l2 : List (Nat × Nat)) :
    ∀ s : EngineState, run s (l1 ++ l2) = run (run s l1) l2 := by
  induction l1 with
  | nil => intro s; rfl
  | cons p rest ih => intro s; cases p; simp [run, ih]

/-- Processing a sequence of begin(Subsequent) writes while a draw is
pending only increments the recorded instance count, once per write. -/
theorem run_begin_subsequent (L : List Nat) :
    ∀ t : EngineState, t.shadow shadowRamControlAddr = shadowModeMethodPassthrough →
    t.batchBuffer = [] → t.dd.pending = true →
    (∀ x ∈ L, beginInstanceId x = instanceIdSubsequent) →
    (run t (L.map fun x => (beginAddr, x))).dd =
      { t.dd with instanceCount := t.dd.instanceCount + L.length } ∧
    (run t (L.map fun x => (beginAddr, x))).batchBuffer = [] ∧
    (run t (L.map fun x => (beginAddr, x))).shadow = t.shadow ∧
    (run t (L.map fun x => (beginAddr, x))).errors = t.errors ∧
    drawsOf (run t (L.map fun x => (beginAddr, x))).events = drawsOf t.events := by
  induction L with
  | nil =>
      intro t h1 h2 h3 h4
      exact ⟨rfl, h2, rfl, rfl, rfl⟩
  | cons x xs ih =>
      intro t h1 h2 h3 h4
      obtain ⟨hdd, hbb, hbso, hsh, herr, hdr⟩ :=
        handleMethod_pending_begin_sub t x h1 h2 h3 (h4 x (List.mem_cons_self x xs))
      have h1a : (HandleMethod t beginAddr x).shadow shadowRamControlAddr =
          shadowModeMethodPassthrough := by rw [hsh]; exact h1
      have h2a : (HandleMethod t beginAddr x).batchBuffer = [] := by rw [hbb]; exact h2
      have h3a : (HandleMethod t beginAddr x).dd.pending = true := by rw [hdd]; exact h3
      have h4a : ∀ y ∈ xs, beginInstanceId y = instanceIdSubsequent :=
        fun y hy => h4 y (List.mem_cons_of_mem x hy)
      obtain ⟨q1, q2, q3, q4, q5⟩ := ih (HandleMethod t beginAddr x) h1a h2a h3a h4a
      simp only [List.map_cons, run]
      refine ⟨?_, q2, ?_, ?_, ?_⟩
      · rw [q1, hdd]
        have : t.dd.instanceCount + 1 + xs.length = t.dd.instanceCount + (xs.length + 1) := by
          omega
        simp [this]
      · rw [q3, hsh]
      · rw [q4, herr]
      · rw [q5, hdr]

/-- A draw-count write in the quiescent state creates the deferred-draw
record (pending set, instance count carried over) without emitting
anything. -/
theorem drawcount_write_creates (s : EngineState) (m1 c : Nat)
    (hpass : s.shadow shadowRamControlAddr = shadowModeMethodPassthrough)
    (hbatch : s.batchBuffer = []) (hpend : s.dd.pending = false)
    (hm1 : m1 = drawVertexArrayCountAddr ∨ m1 = drawIndexBufferCountAddr) :
    (HandleMethod s m1 c).dd.pending = true ∧
    (HandleMethod s m1 c).dd.instanceCount = s.dd.instanceCount ∧
    (HandleMethod s m1 c).batchBuffer = [] ∧
    (HandleMethod s m1 c).shadow = s.shadow ∧
    drawsOf (HandleMethod s m1 c).events = drawsOf s.events := by
  rcases hm1 with h | h
  · subst h
    rw [handleMethod_normal s c (by decide) hpass hbatch hpend]
    unfold Layer45
    rw [perMethodEffects_at_dva]
    obtain ⟨f1, f2, f3, f4, f5, f6, f7, f8, f9, f10, f11⟩ :=
      dirtyAndDirect_frame { s with regs := upd s.regs drawVertexArrayCountAddr c }
        drawVertexArrayCountAddr c (decide (s.regs drawVertexArrayCountAddr = c))
    refine ⟨rfl, ?_, f3.trans hbatch, f2, f9⟩
    simp only [DeferredDrawSet]
    rw [f5]
  · subst h
    rw [handleMethod_normal s c (by decide) hpass hbatch hpend]
    unfold Layer45
    rw [perMethodEffects_at_dib]
    obtain ⟨f1, f2, f3, f4, f5, f6, f7, f8, f9, f10, f11⟩ :=
      dirtyAndDirect_frame { s with regs := upd s.regs drawIndexBufferCountAddr c }
        drawIndexBufferCountAddr c (decide (s.regs drawIndexBufferCountAddr = c))
    refine ⟨rfl, ?_, f3.trans hbatch, f2, f9⟩
    simp only [DeferredDrawSet]
    rw [f5]

/-- Claim C2 (amended): from a quiescent dispatcher state (passthrough
shadow mode, no active batch, no pending draw, instance count 1), a
draw-count write followed by K begin(Subsequent) writes and then one
write to an unrelated non-draw method other than the shadow-RAM control
register emits exactly one Draw call, whose instance count is K+1 and
whose remaining parameters are those recorded by the draw-count write;
afterwards the deferred-draw record has pending cleared and instance
count reset to 1. -/
theorem c2_instanced_draw_coalescing (s : EngineState) (m1 c : Nat) (L : List Nat) (u w : Nat)
    (hpass : s.shadow shadowRamControlAddr = shadowModeMethodPassthrough)
    (hbatch : s.batchBuffer = []) (hpend : s.dd.pending = false)
    (hinst : s.dd.instanceCount = 1)
    (hm1 : m1 = drawVertexArrayCountAddr ∨ m1 = drawIndexBufferCountAddr)
    (hL : ∀ x ∈ L, beginInstanceId x = instanceIdSubsequent)
    (hu1 : u ≠ shadowRamControlAddr) (hu2 : u ≠ beginAddr) (hu3 : u ≠ endAddr)
    (hu4 : u ≠ drawVertexArrayCountAddr) (hu5 : u ≠ drawIndexBufferCountAddr) :
    drawsOf (run s ((m1, c) :: (L.map fun x => (beginAddr, x)) ++ [(u, w)])).events =
      drawsOf s.events ++
        [mkDrawEvent { (HandleMethod s m1 c).dd with instanceCount := L.length + 1 }] ∧
    (run s ((m1, c) :: (L.map fun x => (beginAddr, x)) ++ [(u, w)])).dd.pending = false ∧
    (run s ((m1, c) :: (L.map fun x => (beginAddr, x)) ++ [(u, w)])).dd.instanceCount = 1 := by
  obtain ⟨p1, p2, p3, p4, p5⟩ := drawcount_write_creates s m1 c hpass hbatch hpend hm1
  have hpass1 : (HandleMethod s m1 c).shadow shadowRamControlAddr =
      shadowModeMethodPassthrough := by rw [p4]; exact hpass
  obtain ⟨q1, q2, q3, q4, q5⟩ := run_begin_subsequent L (HandleMethod s m1 c) hpass1 p3 p1 hL
  have hpass2 : (run (HandleMethod s m1 c) (L.map fun x => (beginAddr, x))).shadow
      shadowRamControlAddr = shadowModeMethodPassthrough := by rw [q3]; exact hpass1
  have hpend2 : (run (HandleMethod s m1 c) (L.map fun x => (beginAddr, x))).dd.pending =
      true := by rw [q1]; exact p1
  have hrun : run s ((m1, c) :: (L.map fun x => (beginAddr, x)) ++ [(u, w)]) =
      HandleMethod (run (HandleMethod s m1 c) (L.map fun x => (beginAddr, x))) u w := by
    show run (HandleMethod s m1 c) ((L.map fun x => (beginAddr, x)) ++ [(u, w)]) = _
    rw [run_append]
    rfl
  rw [hrun, handleMethod_pending_flush _ w hu1 hpass2 q2 hpend2 hu2 hu3 hu4 hu5]
  refine ⟨?_, ?_, ?_⟩
  · rw [layer45_draws]
    rw [flushDeferredDraw_pending
      { run (HandleMethod s m1 c) (L.map fun x => (beginAddr, x)) with
        regs := upd (run (HandleMethod s m1 c) (L.map fun x => (beginAddr, x))).regs u w }
      hpend2]
    simp only [drawsOf_append]
    rw [q5, p5, q1]
    have hic : (HandleMethod s m1 c).dd.instanceCount + L.length = L.length + 1 := by
      rw [p2, hinst]; omega
    simp [drawsOf, isDrawEvent, mkDrawEvent, hic]
  · rw [layer45_dd _ u w _ hu2 hu4 hu5]
    rw [flushDeferredDraw_pending
      { run (HandleMethod s m1 c) (L.map fun x => (beginAddr, x)) with
        regs := upd (run (HandleMethod s m1 c) (L.map fun x => (beginAddr, x))).regs u w }
      hpend2]
  · rw [layer45_dd _ u w _ hu2 hu4 hu5]
    rw [flushDeferredDraw_pending
      { run (HandleMethod s m1 c) (L.map fun x => (beginAddr, x)) with
        regs := upd (run (HandleMethod s m1 c) (L.map fun x => (beginAddr, x))).regs u w }
      hpend2]

/-- Counterexample to C2 as stated: with K = 0, taking the unrelated
non-draw method to be the shadow-RAM control register (which layer 1
short-circuits) emits no Draw call at all and leaves the draw pending,
instead of the one Draw call with instance count 1 that the claim
requires for every unrelated method. -/
theorem c2_instanced_draw_coalescing_counterexample :
    drawsOf (run initState
      [(drawVertexArrayCountAddr, 5), (shadowRamControlAddr, 0)]).events = [] ∧
    (run initState
      [(drawVertexArrayCountAddr, 5), (shadowRamControlAddr, 0)]).dd.pending = true := by
  exact ⟨rfl, rfl⟩

/-- Witness for the amended C2 with K = 2: one Draw call with instance
count 3. -/
theorem c2_instanced_draw_coalescing_witness :
    (∀ x ∈ [beginSubArg, beginSubArg], beginInstanceId x = instanceIdSubsequent) ∧
    (drawsOf (run initState ((drawVertexArrayCountAddr, 7) ::
        ([beginSubArg, beginSubArg].map fun x => (beginAddr, x)) ++ [(0x111, 3)])).events =
      drawsOf initState.events ++
        [mkDrawEvent { (HandleMethod initState drawVertexArrayCountAddr 7).dd with
          instanceCount := [beginSubArg, beginSubArg].length + 1 }] ∧
     (run initState ((drawVertexArrayCountAddr, 7) ::
        ([beginSubArg, beginSubArg].map fun x => (beginAddr, x)) ++ [(0x111, 3)])).dd.pending =
       false ∧
     (run initState ((drawVertexArrayCountAddr, 7) ::
        ([beginSubArg, beginSubArg].map fun x => (beginAddr, x)) ++
          [(0x111, 3)])).dd.instanceCount = 1) ∧
    drawsOf (run initState ((drawVertexArrayCountAddr, 7) ::
        ([beginSubArg, beginSubArg].map fun x => (beginAddr, x)) ++ [(0x111, 3)])).events =
      [Event.Draw 0 false 7 0 3 0 0] :=
  ⟨by decide,
   c2_instanced_draw_coalescing initState drawVertexArrayCountAddr 7
     [beginSubArg, beginSubArg] 0x111 3 rfl rfl rfl rfl (Or.inl rfl) (by decide) (by decide)
     (by decide) (by decide) (by decide) (by decide),
   by rfl⟩

/-- When no batch is active, every write to a method that is neither the
shadow-RAM control register nor one of the draw-related methods reaches
layers 4/5 with the argument committed and an undisturbed batch record. -/
theorem handleMethod_to_layer45_nobatch (s : EngineState) (m a : Nat)
    (hm : m ≠ shadowRamControlAddr)
    (hpass : s.shadow shadowRamControlAddr = shadowModeMethodPassthrough)
    (hbatch : s.batchBuffer = []) (hnb : m ≠ beginAddr) (hne : m ≠ endAddr)
    (hnv : m ≠ drawVertexArrayCountAddr) (hni : m ≠ drawIndexBufferCountAddr) :
    ∃ t, HandleMethod s m a = Layer45 t m a (decide (s.regs m = a)) ∧
      t.regs = upd s.regs m a ∧ t.batchBuffer = [] ∧
      t.batchStartOffset = s.batchStartOffset ∧
      lcbsOf t.events = lcbsOf s.events ∧ t.shadow = s.shadow := by
  by_cases hp : s.dd.pending = true
  · refine ⟨FlushDeferredDraw { s with regs := upd s.regs m a },
      handleMethod_pending_flush s a hm hpass hbatch hp hnb hne hnv hni,
      flushDeferredDraw_regs _, ?_, ?_, ?_, ?_⟩
    · exact ((flushDeferredDraw_frame _).2.2.1).trans hbatch
    · exact (flushDeferredDraw_frame _).2.2.2.1
    · exact (flushDeferredDraw_frame _).2.2.2.2.2.2.2.2.1
    · exact (flushDeferredDraw_frame _).2.1
  · have hp2 : s.dd.pending = false := by revert hp; cases s.dd.pending <;> simp
    exact ⟨{ s with regs := upd s.regs m a },
      handleMethod_normal s a hm hpass hbatch hp2, rfl, hbatch, rfl, rfl, rfl⟩

/-- The first constant-buffer data write with no batch active creates the
batch record: the offset register value is recorded as startOffset, the
word is accumulated, and the offset register advances by 4. -/
theorem lcb_first_write (s : EngineState) {m : Nat} (a : Nat)
    (hdata : isLcbDataAddr m)
    (hpass : s.shadow shadowRamControlAddr = shadowModeMethodPassthrough)
    (hbatch : s.batchBuffer = []) :
    (HandleMethod s m a).batchBuffer = [a] ∧
    (HandleMethod s m a).batchStartOffset = s.regs loadConstantBufferOffsetAddr ∧
    (HandleMethod s m a).regs loadConstantBufferOffsetAddr =
      (s.regs loadConstantBufferOffsetAddr + 4) % 2 ^ 32 ∧
    (HandleMethod s m a).shadow = s.shadow ∧
    lcbsOf (HandleMethod s m a).events = lcbsOf s.events := by
  have hb : loadConstantBufferDataBase ≤ m ∧ m < loadConstantBufferDataBase + 16 := hdata
  unfold loadConstantBufferDataBase at hb
  obtain ⟨t, heq, hregs, hbb, hbso, hlcb, hsh⟩ := handleMethod_to_layer45_nobatch s m a
    (by unfold shadowRamControlAddr; omega) hpass hbatch
    (by unfold beginAddr; omega) (by unfold endAddr; omega)
    (by unfold drawVertexArrayCountAddr; omega) (by unfold drawIndexBufferCountAddr; omega)
  obtain ⟨f1, f2, f3, f4, f5, f6, f7, f8, f9, f10, f11⟩ :=
    dirtyAndDirect_frame t m a (decide (s.regs m = a))
  have hoff : (DirtyAndDirect t m a (decide (s.regs m = a))).regs loadConstantBufferOffsetAddr =
      s.regs loadConstantBufferOffsetAddr := by
    rw [f1, hregs]
    exact upd_other s.regs m a loadConstantBufferOffsetAddr (Ne.symm (lcbData_ne_offset hdata))
  rw [heq]
  unfold Layer45
  rw [perMethodEffects_at_lcbData _ a hdata]
  refine ⟨?_, ?_, ?_, ?_, ?_⟩
  · show (DirtyAndDirect t m a (decide (s.regs m = a))).batchBuffer ++ [a] = [a]
    simp [f3, hbb]
  · exact hoff
  · show upd (DirtyAndDirect t m a (decide (s.regs m = a))).regs loadConstantBufferOffsetAddr
      _ loadConstantBufferOffsetAddr = _
    simp [upd_self, hoff]
  · rw [f2, hsh]
  · have : lcbsOf (DirtyAndDirect t m a (decide (s.regs m = a))).events = lcbsOf s.events :=
      f10.trans hlcb
    exact this

/-- While a batch is active, a run of constant-buffer data writes appends
the words in order and advances the offset register by 4 per word,
touching nothing else. -/
theorem run_lcb_data (W : List (Nat × Nat)) :
    ∀ t : EngineState, t.shadow shadowRamControlAddr = shadowModeMethodPassthrough →
    t.batchBuffer ≠ [] → t.regs loadConstantBufferOffsetAddr < 2 ^ 32 →
    (∀ p ∈ W, isLcbDataAddr p.1) →
    (run t W).batchBuffer = t.batchBuffer ++ W.map Prod.snd ∧
    (run t W).batchStartOffset = t.batchStartOffset ∧
    (run t W).regs loadConstantBufferOffsetAddr =
      (t.regs loadConstantBufferOffsetAddr + 4 * W.length) % 2 ^ 32 ∧
    (run t W).shadow = t.shadow ∧
    (run t W).events = t.events := by
  induction W with
  | nil =>
      intro t h1 h2 h3 h4
      refine ⟨by simp [run], rfl, ?_, rfl, rfl⟩
      simp only [run, List.length_nil, Nat.mul_zero, Nat.add_zero]
      omega
  | cons p rest ih =>
      intro t h1 h2 h3 h4
      obtain ⟨hmp, hw⟩ : isLcbDataAddr p.1 ∧ True := ⟨h4 p (List.mem_cons_self p rest), trivial⟩
      obtain ⟨b1, b2, b3, b4, b5, b6, b7⟩ := handleMethod_batch_append t p.2 hmp h1 h2
      have h1a : (HandleMethod t p.1 p.2).shadow shadowRamControlAddr =
          shadowModeMethodPassthrough := by rw [b4]; exact h1
      have h2a : (HandleMethod t p.1 p.2).batchBuffer ≠ [] := by
        rw [b1]; simp
      have h3a : (HandleMethod t p.1 p.2).regs loadConstantBufferOffsetAddr < 2 ^ 32 := by
        rw [b3]; exact Nat.mod_lt _ (by norm_num)
      have h4a : ∀ q ∈ rest, isLcbDataAddr q.1 := fun q hq => h4 q (List.mem_cons_of_mem p hq)
      obtain ⟨r1, r2, r3, r4, r5⟩ := ih (HandleMethod t p.1 p.2) h1a h2a h3a h4a
      have hrun : run t (p :: rest) = run (HandleMethod t p.1 p.2) rest := by
        cases p; rfl
      rw [hrun]
      refine ⟨?_, r2.trans b2, ?_, r4.trans b4, r5.trans b6⟩
      · rw [r1, b1]
        simp
      · rw [r3, b3, Nat.mod_add_mod]
        have : t.regs loadConstantBufferOffsetAddr + 4 + 4 * rest.length =
            t.regs loadConstantBufferOffsetAddr + 4 * (rest.length + 1) := by omega
        rw [this]
        rfl

/-- Claim C3 (amended): from a quiescent dispatcher state (passthrough
shadow mode, no active batch), N consecutive constant-buffer data writes
followed by one write to a non-data method other than the shadow-RAM
control register emit exactly one downstream LoadConstantBuffer call
containing all N words in write order, with the recorded start offset
equal to the offset register value at the first write; the batch record
is cleared afterwards and the offset register has advanced by 4 per data
write (modulo 2^32). -/
theorem c3_batch_coalescing (s : EngineState) (m0 w0 : Nat) (W : List (Nat × Nat))
    (u uw : Nat)
    (hpass : s.shadow shadowRamControlAddr = shadowModeMethodPassthrough)
    (hbatch : s.batchBuffer = [])
    (hm0 : isLcbDataAddr m0)
    (hW : ∀ p ∈ W, isLcbDataAddr p.1)
    (hu1 : ¬ isLcbDataAddr u) (hu2 : u ≠ shadowRamControlAddr) :
    lcbsOf (run s (((m0, w0) :: W) ++ [(u, uw)])).events =
      lcbsOf s.events ++
        [Event.LoadConstantBuffer (w0 :: W.map Prod.snd)
          (s.regs loadConstantBufferOffsetAddr)] ∧
    (run s (((m0, w0) :: W) ++ [(u, uw)])).batchBuffer = [] ∧
    (run s ((m0, w0) :: W)).regs loadConstantBufferOffsetAddr =
      (s.regs loadConstantBufferOffsetAddr + 4 * (W.length + 1)) % 2 ^ 32 := by
  obtain ⟨a1, a2, a3, a4, a5⟩ := lcb_first_write s w0 hm0 hpass hbatch
  have hpass1 : (HandleMethod s m0 w0).shadow shadowRamControlAddr =
      shadowModeMethodPassthrough := by rw [a4]; exact hpass
  have hne1 : (HandleMethod s m0 w0).batchBuffer ≠ [] := by rw [a1]; simp
  have hlt1 : (HandleMethod s m0 w0).regs loadConstantBufferOffsetAddr < 2 ^ 32 := by
    rw [a3]; exact Nat.mod_lt _ (by norm_num)
  obtain ⟨r1, r2, r3, r4, r5⟩ := run_lcb_data W (HandleMethod s m0 w0) hpass1 hne1 hlt1 hW
  have hrun1 : run s ((m0, w0) :: W) = run (HandleMethod s m0 w0) W := rfl
  have hpass2 : (run (HandleMethod s m0 w0) W).shadow shadowRamControlAddr =
      shadowModeMethodPassthrough := by rw [r4]; exact hpass1
  have hne2 : (run (HandleMethod s m0 w0) W).batchBuffer ≠ [] := by
    rw [r1, a1]; simp
  have hrun : run s (((m0, w0) :: W) ++ [(u, uw)]) =
      HandleMethod (run (HandleMethod s m0 w0) W) u uw := by
    show run (HandleMethod s m0 w0) (W ++ [(u, uw)]) = _
    rw [run_append]
    rfl
  refine ⟨?_, ?_, ?_⟩
  · rw [hrun, handleMethod_batch_other _ uw hu2 hpass2 hne2 hu1, layer45_lcbs]
    have hfb := (flushBatch_frame { run (HandleMethod s m0 w0) W with
        regs := upd (run (HandleMethod s m0 w0) W).regs u uw }).2.2.2.2.2.2.2.2.2.2
    rw [hfb]
    show lcbsOf (run (HandleMethod s m0 w0) W).events ++
      [Event.LoadConstantBuffer (run (HandleMethod s m0 w0) W).batchBuffer
        (run (HandleMethod s m0 w0) W).batchStartOffset] = _
    rw [r5, a5, r1, a1, r2, a2]
    simp
  · rw [hrun, handleMethod_batch_other _ uw hu2 hpass2 hne2 hu1]
    exact ((layer45_batch _ u uw _ hu1).1).trans
      ((flushBatch_frame _).2.2.2.2.2.2.2.1)
  · rw [hrun1, r3, a3, Nat.mod_add_mod]
    have heq : s.regs loadConstantBufferOffsetAddr + 4 + 4 * W.length =
        s.regs loadConstantBufferOffsetAddr + 4 * (W.length + 1) := by omega
    rw [heq]

/-- Counterexample to C3 as stated: with N = 1, taking the follow-up
method to be the shadow-RAM control register (which layer 1
short-circuits before the batch layer) emits no LoadConstantBuffer call
at all and leaves the word sitting in the batch buffer, instead of the
one call the claim requires after a write to any other method. -/
theorem c3_batch_coalescing_counterexample :
    lcbsOf (run initState
      [(loadConstantBufferDataBase, 7), (shadowRamControlAddr, 2)]).events = [] ∧
    (run initState
      [(loadConstantBufferDataBase, 7), (shadowRamControlAddr, 2)]).batchBuffer = [7] := by
  exact ⟨rfl, rfl⟩

/-- Witness for the amended C3 with N = 2: one LoadConstantBuffer call
carrying both words in order, starting at offset 0, with the batch
cleared and the offset register advanced to 8. -/
theorem c3_batch_coalescing_witness :
    (∀ p ∈ [((0x8E9 : Nat), (22 : Nat))], isLcbDataAddr p.1) ∧
    (lcbsOf (run initState (((0x8E8, 11) :: [(0x8E9, 22)]) ++ [(0x222, 9)])).events =
      lcbsOf initState.events ++
        [Event.LoadConstantBuffer (11 :: [((0x8E9 : Nat), (22 : Nat))].map Prod.snd)
          (initState.regs loadConstantBufferOffsetAddr)] ∧
     (run initState (((0x8E8, 11) :: [(0x8E9, 22)]) ++ [(0x222, 9)])).batchBuffer = [] ∧
     (run initState ((0x8E8, 11) :: [(0x8E9, 22)])).regs loadConstantBufferOffsetAddr =
       (initState.regs loadConstantBufferOffsetAddr +
         4 * ([((0x8E9 : Nat), (22 : Nat))].length + 1)) % 2 ^ 32) ∧
    lcbsOf (run initState [(0x8E8, 11), (0x8E9, 22), (0x222, 9)]).events =
      [Event.LoadConstantBuffer [11, 22] 0] :=
  ⟨by decide,
   c3_batch_coalescing initState 0x8E8 11 [(0x8E9, 22)] 0x222 9 rfl rfl
     (by decide) (by decide) (by decide) (by decide),
   by rfl⟩
